import Mathlib

/-!
The remregs master (Arduino): a register bank master over a serial link.

A shallow embedding of `remregs_master.cpp` / `remregs_master.h`.

* Bytes and machine integers are natural numbers; a value is reduced modulo `2 ^ w`
  exactly where the C code narrows it (`(uint8_t)` casts, `uint8_t` counters).
* The serial port is an explicit record: the bytes written so far, the configured
  read timeout and the number of timed single-byte reads performed so far.
* What the remote side does is a parameter `rx : Nat → Option Nat`: the outcome of
  the `i`-th timed single-byte read, `some b` for a received byte, `none` for a
  timeout.
* The `do … while` loop of `sync` is run with an explicit iteration budget `fuel`;
  running out of budget is `none`, which is different from every result of the code.
-/

namespace Remregs

/-! ## Constants of `remregs_master.cpp` and `remregs_master.h` -/

/-- Opcode `ROP_READ_8`: 8-bit register read. -/
def ROP_READ_8 : Nat := 0
/-- Opcode `ROP_READ_16`: 16-bit register read. -/
def ROP_READ_16 : Nat := 1
/-- Opcode `ROP_READ_32`: 32-bit register read. -/
def ROP_READ_32 : Nat := 2
/-- Opcode `ROP_READ_MB`: multibyte register read. -/
def ROP_READ_MB : Nat := 3
/-- Opcode `ROP_WRITE_8`: 8-bit register write. -/
def ROP_WRITE_8 : Nat := 4
/-- Opcode `ROP_WRITE_16`: 16-bit register write. -/
def ROP_WRITE_16 : Nat := 5
/-- Opcode `ROP_WRITE_32`: 32-bit register write. -/
def ROP_WRITE_32 : Nat := 6
/-- Opcode `ROP_WRITE_MB`: multibyte register write. -/
def ROP_WRITE_MB : Nat := 7

/-- State `SYNC_NONE`: no sync with client. -/
def SYNC_NONE : Nat := 0
/-- State `SYNC_OK`: successfully synchronized with client. -/
def SYNC_OK : Nat := 1
/-- State `SYNC_CHECKSUM`: as `SYNC_OK`, with data checksums (never assigned by the code). -/
def SYNC_CHECKSUM : Nat := 2

/-- Byte `ACK`: acknowledge transmission. -/
def ACK : Nat := 6
/-- Byte `NAK`: negative acknowledge. -/
def NAK : Nat := 15

/-- Constant `MAX_MB_SIZE`: maximal size in bytes of a multibyte register. -/
def MAX_MB_SIZE : Nat := 29

/-! ## The serial port -/

/-- Modelled from the spec: the platform class `HardwareSerial` (the Byte Channel, an
external collaborator whose code is not part of the repository). `tx` holds the bytes
written so far, oldest first; `rdTimeout` is the configured read timeout in
milliseconds; `rxPos` counts the timed single-byte reads performed so far. -/
structure HardwareSerial where
  tx : List Nat
  rdTimeout : Nat
  rxPos : Nat
  deriving DecidableEq, Repr

namespace HardwareSerial

/-- Modelled from the spec: `write(byte)` of the Byte Channel, fire-and-forget: the byte
is appended to what has been written. -/
def write (p : HardwareSerial) (b : Nat) : HardwareSerial :=
  { p with tx := p.tx ++ [b] }

/-- Modelled from the spec: `set_read_timeout(duration)` of the Byte Channel. -/
def setTimeout (p : HardwareSerial) (ms : Nat) : HardwareSerial :=
  { p with rdTimeout := ms }

/-- Modelled from the spec: `read(buffer, n) -> count` of the Byte Channel: up to `n`
timed single-byte reads, stopping at the first one that times out; the result is the
list of the bytes received (its length is the count returned) and the port afterwards. -/
def readBytes (rx : Nat → Option Nat) : Nat → HardwareSerial → List Nat × HardwareSerial
  | 0, p => ([], p)
  | n + 1, p =>
    match rx p.rxPos with
    | none => ([], { p with rxPos := p.rxPos + 1 })
    | some b =>
      let r := readBytes rx n { p with rxPos := p.rxPos + 1 }
      (b :: r.1, r.2)

end HardwareSerial

/-! ## The master -/

/-- The data members of `class RegisterBankMaster`: the port, `sync_state` and the
`timeout` flag of the last `read_byte`. -/
structure RegisterBankMaster where
  port : HardwareSerial
  sync_state : Nat
  timeout : Bool
  deriving DecidableEq, Repr

namespace RegisterBankMaster

/-- Function `read_byte` (lines 45-56): one timed read of a single byte; on a timeout
the flag is set and `0xff` is returned. -/
def read_byte (rx : Nat → Option Nat) (s : RegisterBankMaster) : Nat × RegisterBankMaster :=
  let s1 := { s with timeout := false }
  let r := HardwareSerial.readBytes rx 1 s1.port
  let s2 := { s1 with port := r.2 }
  match r.1 with
  | [result] => (result, s2)
  | _ => (0xff, { s2 with timeout := true })

/-- The `for` loop of `desync` (lines 61-63): `n` further bytes `0xff` are written. -/
def desync_burst : Nat → HardwareSerial → HardwareSerial
  | 0, p => p
  | n + 1, p => desync_burst n (p.write 0xff)

/-- Function `desync` (lines 58-66). -/
def desync (force : Bool) (s : RegisterBankMaster) : RegisterBankMaster :=
  let s1 :=
    if force ∨ s.sync_state ≠ SYNC_NONE then
      { s with port := desync_burst (MAX_MB_SIZE + 5) s.port }
    else s
  { s1 with sync_state := SYNC_NONE }

/-- The constructor (lines 34-38), given the serial port it is bound to. -/
def construct (p : HardwareSerial) : RegisterBankMaster :=
  let s : RegisterBankMaster := { port := p, sync_state := SYNC_NONE, timeout := false }
  let s1 := { s with port := s.port.setTimeout 5000 }
  desync true s1

/-- The part of `sync` before its loop (lines 70-74): the writes of the handshake. -/
def sync_begin (s : RegisterBankMaster) : RegisterBankMaster :=
  let s1 := { s with sync_state := SYNC_NONE }
  let s2 := { s1 with port := s1.port.setTimeout 250 }
  let s3 := desync false s2
  let s4 := { s3 with port := s3.port.write 0xaa }
  { s4 with timeout := false }

/-- The `do … while` loop of `sync` (lines 75-91) with the `uint8_t` locals `timer` and
`count`; `some (false, _)` is a `return false` from inside the loop, `some (true, _)`
is the normal exit of the loop, `none` is an exhausted iteration budget. -/
def sync_loop (rx : Nat → Option Nat) :
    Nat → Nat → Nat → RegisterBankMaster → Option (Bool × RegisterBankMaster)
  | 0, _, _, _ => none
  | fuel + 1, timer, count, s =>
    let r := read_byte rx s
    let b := r.1
    let timedOut := r.2.timeout
    let s1 := if timedOut then { r.2 with timeout := false } else r.2
    let timer1 := if timedOut then (timer + 1) % 256 else timer
    if timedOut ∧ timer1 > 10 then some (false, s1)
    else if b ≠ 0xaa ∧ b ≠ 0x55 then
      let count1 := (count + 1) % 256
      if count1 > 200 then some (false, s1)
      else sync_loop rx fuel timer1 count1 s1
    else some (true, s1)

/-- Function `sync` (lines 68-95). -/
def sync (rx : Nat → Option Nat) (fuel : Nat) (s : RegisterBankMaster) :
    Option (Bool × RegisterBankMaster) :=
  match sync_loop rx fuel 0 0 (sync_begin s) with
  | none => none
  | some (false, t) => some (false, t)
  | some (true, t) =>
    let t1 := { t with sync_state := SYNC_OK }
    some (true, { t1 with port := t1.port.setTimeout 5000 })

/-- First header byte of a request (line 107). -/
def header0 (op addr : Nat) : Nat :=
  ((op <<< 2) ||| ((addr &&& 0x300) >>> 8)) % 256

/-- Second header byte of a request (line 108). -/
def header1 (addr : Nat) : Nat :=
  (addr &&& 0xff) % 256

/-- The `for` loop of `reg_op` (lines 112-114): writes `data[i]`, `data[i+1]`, … for
`n` iterations. The counter is a `uint8_t` below `len`, so it does not wrap. -/
def write_data (data : Nat → Nat) : Nat → Nat → HardwareSerial → HardwareSerial
  | 0, _, p => p
  | n + 1, i, p => write_data data n (i + 1) (p.write (data i))

/-- The request part of `reg_op` (lines 106-114): header, optional length, payload. -/
def send_request (s : RegisterBankMaster) (op addr : Nat) (data : Nat → Nat) (len : Nat) :
    RegisterBankMaster :=
  let p1 := s.port.write (header0 op addr)
  let p2 := p1.write (header1 addr)
  let p3 := if op = ROP_WRITE_MB then p2.write len else p2
  { s with port := write_data data len 0 p3 }

/-- The acknowledgement part of `reg_op` (lines 116-128). -/
def read_ack (rx : Nat → Option Nat) (s : RegisterBankMaster) : Bool × RegisterBankMaster :=
  let r := read_byte rx { s with timeout := false }
  if r.2.timeout ∨ r.1 = 0xff then (false, { r.2 with sync_state := SYNC_NONE })
  else if r.1 = ACK then (true, r.2)
  else (false, r.2)

/-- Function `reg_op` (lines 97-129); `data` is the memory the pointer refers to. -/
def reg_op (rx : Nat → Option Nat) (fuel : Nat) (s : RegisterBankMaster)
    (op addr : Nat) (data : Nat → Nat) (len : Nat) : Option (Bool × RegisterBankMaster) :=
  match (if s.sync_state = SYNC_NONE then sync rx fuel s else some (true, s)) with
  | none => none
  | some (false, s1) => some (false, s1)
  | some (true, s1) => some (read_ack rx (send_request s1 op addr data len))

/-- The object representation of an integer, least significant byte first (the byte
order of the Arduino targets): byte `i` of `val`. -/
def bytes_of (val : Nat) (i : Nat) : Nat :=
  (val >>> (8 * i)) % 256

/-- The integer whose object representation is the given bytes, least significant
byte first. -/
def of_bytes : List Nat → Nat
  | [] => 0
  | b :: bs => b + 256 * of_bytes bs

/-- The null pointer passed by the read operations; it is never dereferenced. -/
def NULL : Nat → Nat := fun _ => 0

/-- Function `get_reg_8` (lines 131-142). -/
def get_reg_8 (rx : Nat → Option Nat) (fuel : Nat) (s : RegisterBankMaster) (addr : Nat) :
    Option (Nat × RegisterBankMaster) :=
  match reg_op rx fuel s ROP_READ_8 addr NULL 0 with
  | none => none
  | some (false, s1) => some (0xff, s1)
  | some (true, s1) =>
    let r := HardwareSerial.readBytes rx 1 s1.port
    if r.1.length = 1 then some (of_bytes r.1, { s1 with port := r.2 })
    else some (0xff, { s1 with port := r.2 })

/-- Function `get_reg_16` (lines 144-155). -/
def get_reg_16 (rx : Nat → Option Nat) (fuel : Nat) (s : RegisterBankMaster) (addr : Nat) :
    Option (Nat × RegisterBankMaster) :=
  match reg_op rx fuel s ROP_READ_16 addr NULL 0 with
  | none => none
  | some (false, s1) => some (0xff, s1)
  | some (true, s1) =>
    let r := HardwareSerial.readBytes rx 2 s1.port
    if r.1.length = 2 then some (of_bytes r.1, { s1 with port := r.2 })
    else some (0xffff, { s1 with port := r.2 })

/-- Function `get_reg_32` (lines 157-168). -/
def get_reg_32 (rx : Nat → Option Nat) (fuel : Nat) (s : RegisterBankMaster) (addr : Nat) :
    Option (Nat × RegisterBankMaster) :=
  match reg_op rx fuel s ROP_READ_32 addr NULL 0 with
  | none => none
  | some (false, s1) => some (0xff, s1)
  | some (true, s1) =>
    let r := HardwareSerial.readBytes rx 4 s1.port
    if r.1.length = 4 then some (of_bytes r.1, { s1 with port := r.2 })
    else some (0xffffffff, { s1 with port := r.2 })

/-- What `get_reg_mb` hands back: its return value, the value stored in `*len` (if any
was stored) and the bytes stored in the caller's buffer `data`, in order. -/
structure MbResult where
  ok : Bool
  len : Option Nat
  data : List Nat
  deriving DecidableEq, Repr

/-- Function `get_reg_mb` (lines 170-181). -/
def get_reg_mb (rx : Nat → Option Nat) (fuel : Nat) (s : RegisterBankMaster) (addr : Nat) :
    Option (MbResult × RegisterBankMaster) :=
  match reg_op rx fuel s ROP_READ_MB addr NULL 0 with
  | none => none
  | some (false, s1) => some ({ ok := false, len := none, data := [] }, s1)
  | some (true, s1) =>
    let r := read_byte rx { s1 with timeout := false }
    if r.2.timeout then some ({ ok := false, len := some r.1, data := [] }, r.2)
    else
      let q := HardwareSerial.readBytes rx r.1 r.2.port
      some ({ ok := decide (q.1.length = r.1), len := some r.1, data := q.1 },
        { r.2 with port := q.2 })

/-- Function `set_reg_8` (lines 183-186). -/
def set_reg_8 (rx : Nat → Option Nat) (fuel : Nat) (s : RegisterBankMaster)
    (addr val : Nat) : Option (Bool × RegisterBankMaster) :=
  reg_op rx fuel s ROP_WRITE_8 addr (bytes_of val) 1

/-- Function `set_reg_16` (lines 188-190). -/
def set_reg_16 (rx : Nat → Option Nat) (fuel : Nat) (s : RegisterBankMaster)
    (addr val : Nat) : Option (Bool × RegisterBankMaster) :=
  reg_op rx fuel s ROP_WRITE_16 addr (bytes_of val) 2

/-- Function `set_reg_32` (lines 192-195). -/
def set_reg_32 (rx : Nat → Option Nat) (fuel : Nat) (s : RegisterBankMaster)
    (addr val : Nat) : Option (Bool × RegisterBankMaster) :=
  reg_op rx fuel s ROP_WRITE_32 addr (bytes_of val) 4

/-- Function `set_reg_mb` (lines 197-200). -/
def set_reg_mb (rx : Nat → Option Nat) (fuel : Nat) (s : RegisterBankMaster)
    (addr : Nat) (data : Nat → Nat) (len : Nat) : Option (Bool × RegisterBankMaster) :=
  reg_op rx fuel s ROP_WRITE_MB addr data len

/-! ## Concrete inputs used to exercise the theorems -/

/-- A port on which nothing has been written or read yet. -/
def fresh_port : HardwareSerial := { tx := [], rdTimeout := 0, rxPos := 0 }

/-- A master whose link is synchronized, with the normal read timeout. -/
def synced_master : RegisterBankMaster :=
  { port := { tx := [], rdTimeout := 5000, rxPos := 0 }, sync_state := SYNC_OK,
    timeout := false }

/-- A remote side that never answers: every read times out. -/
def rx_silent : Nat → Option Nat := fun _ => none

/-- A remote side that answers every read with the same byte. -/
def rx_const (b : Nat) : Nat → Option Nat := fun _ => some b

/-- A remote side that answers the first read with the marker `0x55` and every later
read with the given outcome. -/
def rx_sync_then (o : Option Nat) : Nat → Option Nat := fun i => if i = 0 then some 0x55 else o

/-- A remote side that sends `n` bytes `0x00` and then only `0xaa`. -/
def rx_noise (n : Nat) : Nat → Option Nat := fun i => if i < n then some 0 else some 0xaa

/-- A remote side on which timeouts and bytes `0x00` alternate for the first 22 reads
(11 timeouts, no two in a row, and 11 bytes) and that sends only `0xaa` afterwards. -/
def rx_alternating : Nat → Option Nat :=
  fun i => if i < 22 then (if i % 2 = 0 then none else some 0) else some 0xaa

/-- A remote side whose first 10 reads time out, that then sends 191 bytes `0x00` and
only `0xaa` afterwards. -/
def rx_timeouts_then_noise : Nat → Option Nat :=
  fun i => if i < 10 then none else if i < 201 then some 0 else some 0xaa

/-- A remote side that acknowledges, announces a multibyte payload of `l` bytes, sends
`n` bytes `0x11` and then falls silent. -/
def rx_multibyte (l n : Nat) : Nat → Option Nat :=
  fun i => if i = 0 then some ACK else if i = 1 then some l else
    if i < 2 + n then some 0x11 else none

/-- The remote side that answers the handshake with the marker `0x55` at the first read
and behaves as `rx` from the second read on. -/
def rx_after_handshake (rx : Nat → Option Nat) : Nat → Option Nat :=
  fun i => if i = 0 then some 0x55 else rx (i - 1)

/-! ## Vocabulary of the claims on the handshake and on sequences of operations -/

/-- Whether the outcome of a read is a received marker byte, `0xaa` or `0x55`. -/
def is_marker (o : Option Nat) : Bool :=
  decide (o = some 0xaa) || decide (o = some 0x55)

/-- The number of timeouts among the `j` reads at positions `p`, `p + 1`, …. -/
def timeouts (rx : Nat → Option Nat) : Nat → Nat → Nat
  | _, 0 => 0
  | p, j + 1 => (if rx p = none then 1 else 0) + timeouts rx (p + 1) j

/-- The loop of `sync` with counters that are not reduced modulo 256: what the loop
would do if `timer` and `count` were unbounded integers. -/
def sync_loop_unbounded (rx : Nat → Option Nat) :
    Nat → Nat → Nat → RegisterBankMaster → Option (Bool × RegisterBankMaster)
  | 0, _, _, _ => none
  | fuel + 1, timer, count, s =>
    let r := read_byte rx s
    let b := r.1
    let timedOut := r.2.timeout
    let s1 := if timedOut then { r.2 with timeout := false } else r.2
    let timer1 := if timedOut then timer + 1 else timer
    if timedOut ∧ timer1 > 10 then some (false, s1)
    else if b ≠ 0xaa ∧ b ≠ 0x55 then
      let count1 := count + 1
      if count1 > 200 then some (false, s1)
      else sync_loop_unbounded rx fuel timer1 count1 s1
    else some (true, s1)

/-- The invariant of the link at the boundaries of the public member functions: the
link is unsynchronized, or it is synchronized and the read timeout is 5000 ms. -/
def link_ok (s : RegisterBankMaster) : Prop :=
  s.sync_state = SYNC_NONE ∨ (s.sync_state = SYNC_OK ∧ s.port.rdTimeout = 5000)

/-- A call of one of the public member functions, with its arguments. -/
inductive Call where
  | sync
  | get_reg_8 (addr : Nat)
  | get_reg_16 (addr : Nat)
  | get_reg_32 (addr : Nat)
  | get_reg_mb (addr : Nat)
  | set_reg_8 (addr val : Nat)
  | set_reg_16 (addr val : Nat)
  | set_reg_32 (addr val : Nat)
  | set_reg_mb (addr : Nat) (data : Nat → Nat) (len : Nat)

/-- The master after one call of a public member function (its result is dropped). -/
def after_call (rx : Nat → Option Nat) (fuel : Nat) (s : RegisterBankMaster) :
    Call → Option RegisterBankMaster
  | .sync => (sync rx fuel s).map Prod.snd
  | .get_reg_8 addr => (get_reg_8 rx fuel s addr).map Prod.snd
  | .get_reg_16 addr => (get_reg_16 rx fuel s addr).map Prod.snd
  | .get_reg_32 addr => (get_reg_32 rx fuel s addr).map Prod.snd
  | .get_reg_mb addr => (get_reg_mb rx fuel s addr).map Prod.snd
  | .set_reg_8 addr val => (set_reg_8 rx fuel s addr val).map Prod.snd
  | .set_reg_16 addr val => (set_reg_16 rx fuel s addr val).map Prod.snd
  | .set_reg_32 addr val => (set_reg_32 rx fuel s addr val).map Prod.snd
  | .set_reg_mb addr data len => (set_reg_mb rx fuel s addr data len).map Prod.snd

/-- The master after a sequence of calls of public member functions, in order. -/
def after_calls (rx : Nat → Option Nat) (fuel : Nat) :
    RegisterBankMaster → List Call → Option RegisterBankMaster
  | s, [] => some s
  | s, c :: cs =>
    match after_call rx fuel s c with
    | none => none
    | some t => after_calls rx fuel t cs

/-- The master after one more timed single-byte read has been consumed, with the
`timeout` flag cleared: the state in which `sync` goes on after a read. -/
def after_read (s : RegisterBankMaster) : RegisterBankMaster :=
  { s with port := { s.port with rxPos := s.port.rxPos + 1 }, timeout := false }

/-! ## Lemmas on the header bytes -/

theorem and_0x300_shiftRight (a : Nat) : (a &&& 0x300) >>> 8 = (a >>> 8) % 4 := by
  have h4 : (4 : Nat) = 2 ^ 2 := by norm_num
  have h3 : (0x300 : Nat) = 3 <<< 8 := by decide
  apply Nat.eq_of_testBit_eq
  intro i
  rw [h4, h3]
  simp only [Nat.testBit_shiftRight, Nat.testBit_and, Nat.testBit_mod_two_pow,
    Nat.testBit_shiftLeft]
  rcases i with _ | _ | i
  · simp
  · have h : Nat.testBit 3 1 = true := by decide
    simp [h]
  · have : ¬ (i + 1 + 1 < 2) := by omega
    simp [this]
    have h : Nat.testBit 3 (i + 1 + 1) = false := by
      apply Nat.testBit_lt_two_pow
      calc 3 < 2 ^ 2 := by norm_num
        _ ≤ 2 ^ (i + 1 + 1) := Nat.pow_le_pow_right (by norm_num) (by omega)
    simp [h]

theorem and_3_eq_mod (a : Nat) : a &&& 3 = a % 4 := by
  simpa using Nat.and_pow_two_sub_one_eq_mod a 2

theorem and_0xff_eq_mod (a : Nat) : a &&& 0xff = a % 256 := by
  simpa using Nat.and_pow_two_sub_one_eq_mod a 8

theorem shl2_or_eq_add (a b : Nat) (hb : b < 4) : (a <<< 2) ||| b = 4 * a + b := by
  have h := Nat.mul_add_lt_is_or (i := 2) (b := b) (by omega) a
  rw [Nat.shiftLeft_eq, show a * 2 ^ 2 = 2 ^ 2 * a by ring, ← h]

theorem shl8_or_eq_add (a b : Nat) (hb : b < 256) : (a <<< 8) ||| b = 256 * a + b := by
  have h := Nat.mul_add_lt_is_or (i := 8) (b := b) (by omega) a
  rw [Nat.shiftLeft_eq, show a * 2 ^ 8 = 2 ^ 8 * a by ring, ← h]

theorem header0_eq (op addr : Nat) : header0 op addr = (4 * op + addr / 256 % 4) % 256 := by
  unfold header0
  rw [and_0x300_shiftRight, shl2_or_eq_add _ _ (Nat.mod_lt _ (by norm_num)),
    Nat.shiftRight_eq_div_pow]

theorem header1_eq (addr : Nat) : header1 addr = addr % 256 := by
  unfold header1
  rw [and_0xff_eq_mod]
  omega

/-! ## Lemmas on the port operations -/

theorem read_byte_some (rx : Nat → Option Nat) (s : RegisterBankMaster) (b : Nat)
    (h : rx s.port.rxPos = some b) :
    read_byte rx s =
      (b, { s with port := { s.port with rxPos := s.port.rxPos + 1 }, timeout := false }) := by
  simp [read_byte, HardwareSerial.readBytes, h]

theorem read_byte_none (rx : Nat → Option Nat) (s : RegisterBankMaster)
    (h : rx s.port.rxPos = none) :
    read_byte rx s =
      (0xff, { s with port := { s.port with rxPos := s.port.rxPos + 1 }, timeout := true }) := by
  simp [read_byte, HardwareSerial.readBytes, h]

theorem write_data_eq (data : Nat → Nat) (n i : Nat) (p : HardwareSerial) :
    write_data data n i p =
      { p with tx := p.tx ++ (List.range n).map (fun k => data (i + k)) } := by
  induction n generalizing i p with
  | zero => simp [write_data]
  | succ n ih =>
    rw [write_data, ih, List.range_succ_eq_map]
    simp [HardwareSerial.write, Function.comp, Nat.add_assoc, Nat.add_comm 1]

theorem desync_burst_eq (n : Nat) (p : HardwareSerial) :
    desync_burst n p = { p with tx := p.tx ++ List.replicate n 0xff } := by
  induction n generalizing p with
  | zero => simp [desync_burst]
  | succ n ih =>
    rw [desync_burst, ih]
    simp [HardwareSerial.write, List.replicate_succ]

theorem send_request_eq (s : RegisterBankMaster) (op addr : Nat) (data : Nat → Nat)
    (len : Nat) :
    send_request s op addr data len =
      { s with port := { s.port with tx := s.port.tx ++ [header0 op addr, header1 addr]
          ++ (if op = ROP_WRITE_MB then [len] else []) ++ (List.range len).map data } } := by
  unfold send_request
  simp only [write_data_eq, Nat.zero_add]
  by_cases h : op = ROP_WRITE_MB <;> simp [h, HardwareSerial.write]

theorem read_ack_some (rx : Nat → Option Nat) (s : RegisterBankMaster) (b : Nat)
    (h : rx s.port.rxPos = some b) :
    read_ack rx s =
      (decide (b = ACK),
        { s with port := { s.port with rxPos := s.port.rxPos + 1 }, timeout := false,
                 sync_state := if b = 0xff then SYNC_NONE else s.sync_state }) := by
  unfold read_ack
  rw [read_byte_some rx { s with timeout := false } b h]
  by_cases h1 : b = 0xff
  · subst h1
    simp [ACK]
  · by_cases h2 : b = ACK
    · subst h2
      simp [ACK]
    · simp [h1, h2]

theorem read_ack_none (rx : Nat → Option Nat) (s : RegisterBankMaster)
    (h : rx s.port.rxPos = none) :
    read_ack rx s =
      (false,
        { s with port := { s.port with rxPos := s.port.rxPos + 1 }, timeout := true,
                 sync_state := SYNC_NONE }) := by
  unfold read_ack
  rw [read_byte_none rx { s with timeout := false } h]
  simp

theorem read_ack_port (rx : Nat → Option Nat) (s : RegisterBankMaster) :
    (read_ack rx s).2.port = { s.port with rxPos := s.port.rxPos + 1 } := by
  cases h : rx s.port.rxPos with
  | none => rw [read_ack_none rx s h]
  | some b => rw [read_ack_some rx s b h]

theorem reg_op_synced (rx : Nat → Option Nat) (fuel : Nat) (s : RegisterBankMaster)
    (op addr : Nat) (data : Nat → Nat) (len : Nat) (hs : s.sync_state ≠ SYNC_NONE) :
    reg_op rx fuel s op addr data len = some (read_ack rx (send_request s op addr data len)) := by
  simp [reg_op, hs]

theorem reg_op_synced_tx (rx : Nat → Option Nat) (fuel : Nat) (s : RegisterBankMaster)
    (op addr : Nat) (data : Nat → Nat) (len : Nat) (hs : s.sync_state ≠ SYNC_NONE) :
    (reg_op rx fuel s op addr data len).map (fun r => r.2.port.tx) =
      some (s.port.tx ++ [header0 op addr, header1 addr]
        ++ (if op = ROP_WRITE_MB then [len] else []) ++ (List.range len).map data) := by
  rw [reg_op_synced rx fuel s op addr data len hs]
  simp [read_ack_port, send_request_eq]

/-! ## Lemmas on the handshake -/

theorem sync_loop_step_none (rx : Nat → Option Nat) (fuel timer count : Nat)
    (s : RegisterBankMaster) (h : rx s.port.rxPos = none) :
    sync_loop rx (fuel + 1) timer count s =
      if (timer + 1) % 256 > 10 then some (false, after_read s)
      else if (count + 1) % 256 > 200 then some (false, after_read s)
      else sync_loop rx fuel ((timer + 1) % 256) ((count + 1) % 256) (after_read s) := by
  rw [sync_loop, read_byte_none rx s h]
  simp [after_read]

theorem sync_loop_step_some (rx : Nat → Option Nat) (fuel timer count : Nat)
    (s : RegisterBankMaster) (b : Nat) (h : rx s.port.rxPos = some b) :
    sync_loop rx (fuel + 1) timer count s =
      if b ≠ 0xaa ∧ b ≠ 0x55 then
        if (count + 1) % 256 > 200 then some (false, after_read s)
        else sync_loop rx fuel timer ((count + 1) % 256) (after_read s)
      else some (true, after_read s) := by
  rw [sync_loop, read_byte_some rx s b h]
  simp [after_read]

theorem sync_begin_eq (s : RegisterBankMaster) :
    sync_begin s =
      { port := { tx := s.port.tx ++ [0xaa], rdTimeout := 250, rxPos := s.port.rxPos },
        sync_state := SYNC_NONE, timeout := false } := by
  simp [sync_begin, desync, HardwareSerial.write, HardwareSerial.setTimeout]

/-- Whatever the loop of `sync` returns, it has only consumed reads. -/
theorem sync_loop_frame (rx : Nat → Option Nat) (fuel : Nat) :
    ∀ (timer count : Nat) (s : RegisterBankMaster) (r : Bool) (t : RegisterBankMaster),
      sync_loop rx fuel timer count s = some (r, t) →
        t.port.tx = s.port.tx ∧ t.port.rdTimeout = s.port.rdTimeout ∧
        t.sync_state = s.sync_state ∧ t.timeout = false ∧ s.port.rxPos < t.port.rxPos := by
  induction fuel with
  | zero => intro timer count s r t h; simp [sync_loop] at h
  | succ fuel ih =>
    intro timer count s r t e
    have base : ∀ r0, some (r0, after_read s) = some (r, t) →
        t.port.tx = s.port.tx ∧ t.port.rdTimeout = s.port.rdTimeout ∧
        t.sync_state = s.sync_state ∧ t.timeout = false ∧ s.port.rxPos < t.port.rxPos := by
      intro r0 h0
      simp only [Option.some.injEq, Prod.mk.injEq] at h0
      obtain ⟨_, rfl⟩ := h0
      simp [after_read]
    have rec : ∀ timer1 count1, sync_loop rx fuel timer1 count1 (after_read s) = some (r, t) →
        t.port.tx = s.port.tx ∧ t.port.rdTimeout = s.port.rdTimeout ∧
        t.sync_state = s.sync_state ∧ t.timeout = false ∧ s.port.rxPos < t.port.rxPos := by
      intro timer1 count1 h0
      obtain ⟨a1, a2, a3, a4, a5⟩ := ih timer1 count1 (after_read s) r t h0
      simp only [after_read] at a1 a2 a3 a5
      exact ⟨a1, a2, a3, a4, by omega⟩
    cases h : rx s.port.rxPos with
    | none =>
      rw [sync_loop_step_none rx fuel timer count s h] at e
      split at e
      · exact base _ e
      · split at e
        · exact base _ e
        · exact rec _ _ e
    | some b =>
      rw [sync_loop_step_some rx fuel timer count s b h] at e
      split at e
      · split at e
        · exact base _ e
        · exact rec _ _ e
      · exact base _ e

/-- The loop of `sync` returns within `201 - count` iterations, having performed at most
that many reads. -/
theorem sync_loop_returns (rx : Nat → Option Nat) (fuel : Nat) :
    ∀ (timer count : Nat) (s : RegisterBankMaster), count ≤ 200 → 201 ≤ fuel + count →
      ∃ r t, sync_loop rx fuel timer count s = some (r, t) ∧
        t.port.rxPos + count ≤ s.port.rxPos + 201 := by
  induction fuel with
  | zero => intro timer count s h1 h2; omega
  | succ fuel ih =>
    intro timer count s h1 h2
    have hc : (count + 1) % 256 = count + 1 := by omega
    have base : (after_read s).port.rxPos + count ≤ s.port.rxPos + 201 := by
      simp only [after_read]; omega
    cases h : rx s.port.rxPos with
    | none =>
      rw [sync_loop_step_none rx fuel timer count s h, hc]
      by_cases ht : (timer + 1) % 256 > 10
      · exact ⟨false, after_read s, by simp [ht], base⟩
      · by_cases hk : count + 1 > 200
        · exact ⟨false, after_read s, by simp [ht, hk], base⟩
        · obtain ⟨r, t, e, a⟩ :=
            ih ((timer + 1) % 256) (count + 1) (after_read s) (by omega) (by omega)
          simp only [after_read] at a
          exact ⟨r, t, by simp [ht, hk, e], by omega⟩
    | some b =>
      rw [sync_loop_step_some rx fuel timer count s b h, hc]
      by_cases hb : b ≠ 0xaa ∧ b ≠ 0x55
      · by_cases hk : count + 1 > 200
        · exact ⟨false, after_read s, by simp [hb, hk], base⟩
        · obtain ⟨r, t, e, a⟩ := ih timer (count + 1) (after_read s) (by omega) (by omega)
          simp only [after_read] at a
          exact ⟨r, t, by simp [hb, hk, e], by omega⟩
      · exact ⟨true, after_read s, by simp [hb], base⟩

/-- Whatever `sync` returns: the only byte written is the marker, a success ends
synchronized with the normal timeout, a failure ends unsynchronized with the handshake
timeout. -/
theorem sync_frame (rx : Nat → Option Nat) (fuel : Nat) (s : RegisterBankMaster)
    (r : Bool) (t : RegisterBankMaster) (h : sync rx fuel s = some (r, t)) :
    t.port.tx = s.port.tx ++ [0xaa] ∧
      t.sync_state = (if r then SYNC_OK else SYNC_NONE) ∧
      t.port.rdTimeout = (if r then 5000 else 250) ∧ t.timeout = false ∧
      s.port.rxPos < t.port.rxPos := by
  unfold sync at h
  split at h
  · simp at h
  · next u hu =>
    simp only [Option.some.injEq, Prod.mk.injEq] at h
    obtain ⟨rfl, rfl⟩ := h
    obtain ⟨a1, a2, a3, a4, a5⟩ := sync_loop_frame rx fuel 0 0 (sync_begin s) false u hu
    rw [sync_begin_eq] at a1 a2 a3 a5
    exact ⟨a1, by simpa using a3, by simpa using a2, a4, a5⟩
  · next u hu =>
    simp only [Option.some.injEq, Prod.mk.injEq] at h
    obtain ⟨rfl, rfl⟩ := h
    obtain ⟨a1, a2, a3, a4, a5⟩ := sync_loop_frame rx fuel 0 0 (sync_begin s) true u hu
    rw [sync_begin_eq] at a1 a2 a3 a5
    exact ⟨by simpa [HardwareSerial.setTimeout] using a1, by simp,
      by simp [HardwareSerial.setTimeout], a4, by simpa [HardwareSerial.setTimeout] using a5⟩

/-- With a budget of at least 201 iterations `sync` returns, after at most 201 reads. -/
theorem sync_returns (rx : Nat → Option Nat) (fuel : Nat) (s : RegisterBankMaster)
    (hfuel : 201 ≤ fuel) :
    ∃ r t, sync rx fuel s = some (r, t) ∧ t.port.rxPos ≤ s.port.rxPos + 201 := by
  obtain ⟨r, t, e, a⟩ :=
    sync_loop_returns rx fuel 0 0 (sync_begin s) (by omega) (by omega)
  rw [sync_begin_eq] at a
  simp only at a
  cases r with
  | false => exact ⟨false, t, by simp [sync, e], by omega⟩
  | true =>
    refine ⟨true, ⟨t.port.setTimeout 5000, SYNC_OK, t.timeout⟩, by simp [sync, e], ?_⟩
    simp only [HardwareSerial.setTimeout]
    omega

/-- How `reg_op` starts: on a synchronized link, or on an unsynchronized one whose
handshake succeeds, it sends the request from the synchronized state `s1`. -/
theorem reg_op_entry (rx : Nat → Option Nat) (fuel : Nat) (s s1 : RegisterBankMaster)
    (op addr : Nat) (data : Nat → Nat) (len : Nat)
    (h : (s.sync_state = SYNC_OK ∧ s1 = s) ∨
      (s.sync_state = SYNC_NONE ∧ sync rx fuel s = some (true, s1))) :
    reg_op rx fuel s op addr data len =
      some (read_ack rx (send_request s1 op addr data len)) := by
  rcases h with ⟨h1, rfl⟩ | ⟨h1, h2⟩
  · exact reg_op_synced rx fuel s1 op addr data len (by rw [h1]; decide)
  · simp [reg_op, h1, h2]

theorem send_request_rxPos (s : RegisterBankMaster) (op addr : Nat) (data : Nat → Nat)
    (len : Nat) : (send_request s op addr data len).port.rxPos = s.port.rxPos := by
  rw [send_request_eq]

theorem send_request_sync_state (s : RegisterBankMaster) (op addr : Nat) (data : Nat → Nat)
    (len : Nat) : (send_request s op addr data len).sync_state = s.sync_state := by
  rw [send_request_eq]

theorem read_ack_true_iff (rx : Nat → Option Nat) (s : RegisterBankMaster) :
    (read_ack rx s).1 = true ↔ rx s.port.rxPos = some ACK := by
  cases h : rx s.port.rxPos with
  | none => simp [read_ack_none rx s h]
  | some b => simp [read_ack_some rx s b h]

/-- The entry condition of the claims on a transmitted frame gives a synchronized `s1`. -/
theorem entry_synced (rx : Nat → Option Nat) (fuel : Nat) (s s1 : RegisterBankMaster)
    (h : (s.sync_state = SYNC_OK ∧ s1 = s) ∨
      (s.sync_state = SYNC_NONE ∧ sync rx fuel s = some (true, s1))) :
    s1.sync_state = SYNC_OK := by
  rcases h with ⟨h1, rfl⟩ | ⟨_, h2⟩
  · exact h1
  · simpa using (sync_frame rx fuel s true s1 h2).2.1

theorem reg_op_unsynced (rx : Nat → Option Nat) (fuel : Nat) (s : RegisterBankMaster)
    (op addr : Nat) (data : Nat → Nat) (len : Nat) (h : s.sync_state = SYNC_NONE) :
    reg_op rx fuel s op addr data len =
      match sync rx fuel s with
      | none => none
      | some (false, u) => some (false, u)
      | some (true, u) => some (read_ack rx (send_request u op addr data len)) := by
  simp [reg_op, h]

/-- An operation started on an unsynchronized link writes the handshake marker first. -/
theorem reg_op_unsynced_tx (rx : Nat → Option Nat) (fuel : Nat) (s : RegisterBankMaster)
    (op addr : Nat) (data : Nat → Nat) (len : Nat) (h : s.sync_state = SYNC_NONE)
    (r : Bool) (u : RegisterBankMaster) (e : reg_op rx fuel s op addr data len = some (r, u)) :
    ∃ rest, u.port.tx = s.port.tx ++ 0xaa :: rest := by
  rw [reg_op_unsynced rx fuel s op addr data len h] at e
  split at e
  · simp at e
  · next v hv =>
    simp only [Option.some.injEq, Prod.mk.injEq] at e
    obtain ⟨_, rfl⟩ := e
    exact ⟨[], (sync_frame rx fuel s false v hv).1⟩
  · next v hv =>
    simp only [Option.some.injEq] at e
    have h1 := (sync_frame rx fuel s true v hv).1
    refine ⟨[header0 op addr, header1 addr] ++ (if op = ROP_WRITE_MB then [len] else [])
      ++ (List.range len).map data, ?_⟩
    have hu : u = (read_ack rx (send_request v op addr data len)).2 := by rw [e]
    rw [hu, read_ack_port, send_request_eq]
    simp [h1]

/-- The request is answered by a timeout: `reg_op` fails and leaves the link
unsynchronized. -/
theorem reg_op_ack_timeout (rx : Nat → Option Nat) (fuel : Nat) (s s1 : RegisterBankMaster)
    (op addr : Nat) (data : Nat → Nat) (len : Nat)
    (h : (s.sync_state = SYNC_OK ∧ s1 = s) ∨
      (s.sync_state = SYNC_NONE ∧ sync rx fuel s = some (true, s1)))
    (hto : rx s1.port.rxPos = none) :
    ∃ t, reg_op rx fuel s op addr data len = some (false, t) ∧ t.sync_state = SYNC_NONE := by
  rw [reg_op_entry rx fuel s s1 op addr data len h,
    read_ack_none rx (send_request s1 op addr data len) (by rw [send_request_rxPos]; exact hto)]
  exact ⟨_, rfl, rfl⟩

/-- A payload read in which one of the first `n` single-byte reads times out is short. -/
theorem readBytes_short (rx : Nat → Option Nat) :
    ∀ (n : Nat) (p : HardwareSerial) (k : Nat), k < n → rx (p.rxPos + k) = none →
      (HardwareSerial.readBytes rx n p).1.length < n := by
  intro n
  induction n with
  | zero => intro p k hk; omega
  | succ n ih =>
    intro p k hk hnone
    cases h : rx p.rxPos with
    | none => simp [HardwareSerial.readBytes, h]
    | some b =>
      cases k with
      | zero => simp [h] at hnone
      | succ k =>
        have := ih { p with rxPos := p.rxPos + 1 } k (by omega)
          (by rw [← hnone]; congr 1; simp only; omega)
        simp [HardwareSerial.readBytes, h]
        exact this

/-- The request is acknowledged: `reg_op` succeeds, having consumed the acknowledgement. -/
theorem reg_op_acked (rx : Nat → Option Nat) (fuel : Nat) (s s1 : RegisterBankMaster)
    (op addr : Nat) (data : Nat → Nat) (len : Nat)
    (h : (s.sync_state = SYNC_OK ∧ s1 = s) ∨
      (s.sync_state = SYNC_NONE ∧ sync rx fuel s = some (true, s1)))
    (hack : rx s1.port.rxPos = some ACK) :
    ∃ t, reg_op rx fuel s op addr data len = some (true, t) ∧
      t.port.rxPos = s1.port.rxPos + 1 ∧ t.sync_state = SYNC_OK := by
  rw [reg_op_entry rx fuel s s1 op addr data len h,
    read_ack_some rx (send_request s1 op addr data len) ACK
      (by rw [send_request_rxPos]; exact hack)]
  refine ⟨_, rfl, ?_, ?_⟩
  · simp [send_request_rxPos]
  · simp [send_request_sync_state, entry_synced rx fuel s s1 h, ACK]

theorem desync_unforced_unsynced (s : RegisterBankMaster) (hs : s.sync_state = SYNC_NONE) :
    desync false s = s := by
  cases s
  simp_all [desync]

theorem desync_forced (s : RegisterBankMaster) :
    desync true s =
      { s with port := { s.port with tx := s.port.tx ++ List.replicate 34 0xff },
               sync_state := SYNC_NONE } := by
  simp [desync, desync_burst_eq, MAX_MB_SIZE]

/-- The loop of `sync` on reads that all time out, entered with both counters at
`10 - d`: it needs exactly `d + 1` iterations and then returns `false`. -/
theorem sync_loop_timeouts (rx : Nat → Option Nat) :
    ∀ (d : Nat), d ≤ 10 → ∀ (fuel : Nat) (s : RegisterBankMaster),
      (∀ i, i ≤ d → rx (s.port.rxPos + i) = none) →
        (fuel ≤ d → sync_loop rx fuel (10 - d) (10 - d) s = none) ∧
        (d < fuel → ∃ t, sync_loop rx fuel (10 - d) (10 - d) s = some (false, t) ∧
          t.port.rxPos = s.port.rxPos + (d + 1)) := by
  intro d
  induction d with
  | zero =>
    intro _ fuel s h
    have h0 : rx s.port.rxPos = none := by simpa using h 0 (Nat.le_refl 0)
    cases fuel with
    | zero => exact ⟨fun _ => rfl, fun hf => absurd hf (by omega)⟩
    | succ fuel =>
      refine ⟨fun hf => absurd hf (by omega), fun _ => ⟨after_read s, ?_, rfl⟩⟩
      rw [sync_loop_step_none rx fuel _ _ s h0]
      simp
  | succ d ih =>
    intro hd fuel s h
    have h0 : rx s.port.rxPos = none := by simpa using h 0 (Nat.zero_le _)
    cases fuel with
    | zero => exact ⟨fun _ => rfl, fun hf => absurd hf (by omega)⟩
    | succ fuel =>
      have e1 : (10 - (d + 1) + 1) % 256 = 10 - d := by omega
      have hstep : sync_loop rx (fuel + 1) (10 - (d + 1)) (10 - (d + 1)) s =
          sync_loop rx fuel (10 - d) (10 - d) (after_read s) := by
        rw [sync_loop_step_none rx fuel _ _ s h0, e1]
        have c1 : ¬ (10 - d > 10) := by omega
        have c2 : ¬ (10 - d > 200) := by omega
        simp [c1, c2]
      obtain ⟨a, b⟩ := ih (by omega) fuel (after_read s) (by
        intro i hi
        have := h (i + 1) (by omega)
        simp only [after_read]
        rw [← this]
        congr 1
        omega)
      rw [hstep]
      refine ⟨fun hf => a (by omega), fun hf => ?_⟩
      obtain ⟨t, e, ht⟩ := b (by omega)
      refine ⟨t, e, ?_⟩
      simp only [after_read] at ht
      omega

/-- The loop of `sync` on `k` received bytes that are no marker followed by a marker,
entered with `count` bytes already counted: it succeeds exactly when `count + k ≤ 200`. -/
theorem sync_loop_noise (rx : Nat → Option Nat) :
    ∀ (k fuel timer count : Nat) (s : RegisterBankMaster), count ≤ 200 → 201 ≤ fuel + count →
      (∀ i, i < k → ∃ b, rx (s.port.rxPos + i) = some b ∧ b ≠ 0xaa ∧ b ≠ 0x55) →
      (∃ m, rx (s.port.rxPos + k) = some m ∧ (m = 0xaa ∨ m = 0x55)) →
        ∃ t, sync_loop rx fuel timer count s = some (decide (count + k ≤ 200), t) := by
  intro k
  induction k with
  | zero =>
    intro fuel timer count s hc hf _ hm
    obtain ⟨m, hm, hmark⟩ := hm
    cases fuel with
    | zero => omega
    | succ fuel =>
      rw [sync_loop_step_some rx fuel timer count s m (by simpa using hm)]
      have : ¬ (m ≠ 0xaa ∧ m ≠ 0x55) := by
        rcases hmark with rfl | rfl <;> simp
      exact ⟨after_read s, by simp [this, hc]⟩
  | succ k ih =>
    intro fuel timer count s hc hf hnoise hm
    obtain ⟨b, hb, hb1, hb2⟩ := hnoise 0 (Nat.succ_pos k)
    cases fuel with
    | zero => omega
    | succ fuel =>
      have e1 : (count + 1) % 256 = count + 1 := by omega
      rw [sync_loop_step_some rx fuel timer count s b (by simpa using hb), e1]
      by_cases hk : count + 1 > 200
      · have : ¬ (count + (k + 1) ≤ 200) := by omega
        exact ⟨after_read s, by simp [hb1, hb2, hk, this]⟩
      · obtain ⟨t, e⟩ := ih fuel timer (count + 1) (after_read s) (by omega) (by omega)
          (by
            intro i hi
            obtain ⟨c, hc1, hc2⟩ := hnoise (i + 1) (by omega)
            refine ⟨c, ?_, hc2⟩
            simp only [after_read]
            rw [← hc1]
            congr 1
            omega)
          (by
            obtain ⟨m, hm1, hm2⟩ := hm
            refine ⟨m, ?_, hm2⟩
            simp only [after_read]
            rw [← hm1]
            congr 1
            omega)
        refine ⟨t, ?_⟩
        have e2 : count + 1 + k = count + (k + 1) := by omega
        rw [e2] at e
        simp [hb1, hb2, hk, e]

theorem readBytes_length_le (rx : Nat → Option Nat) :
    ∀ (n : Nat) (p : HardwareSerial), (HardwareSerial.readBytes rx n p).1.length ≤ n := by
  intro n
  induction n with
  | zero => intro p; simp [HardwareSerial.readBytes]
  | succ n ih =>
    intro p
    cases h : rx p.rxPos with
    | none => simp [HardwareSerial.readBytes, h]
    | some b =>
      have := ih { p with rxPos := p.rxPos + 1 }
      simp [HardwareSerial.readBytes, h]
      exact this

/-- What `get_reg_mb` does once its request has been acknowledged and the length byte
`l` has been received. -/
theorem get_reg_mb_acked (rx : Nat → Option Nat) (fuel : Nat) (s s1 : RegisterBankMaster)
    (addr l : Nat)
    (h : (s.sync_state = SYNC_OK ∧ s1 = s) ∨
      (s.sync_state = SYNC_NONE ∧ sync rx fuel s = some (true, s1)))
    (hack : rx s1.port.rxPos = some ACK) (hl : rx (s1.port.rxPos + 1) = some l) :
    ∃ (p : HardwareSerial) (t : RegisterBankMaster),
      p.rxPos = s1.port.rxPos + 2 ∧ t.sync_state = SYNC_OK ∧
      get_reg_mb rx fuel s addr =
        some ({ ok := decide ((HardwareSerial.readBytes rx l p).1.length = l), len := some l,
                data := (HardwareSerial.readBytes rx l p).1 }, t) := by
  obtain ⟨t, e, hp, hst⟩ := reg_op_acked rx fuel s s1 ROP_READ_MB addr NULL 0 h hack
  have hb := read_byte_some rx { t with timeout := false } l (by rw [← hl, ← hp])
  refine ⟨⟨t.port.tx, t.port.rdTimeout, t.port.rxPos + 1⟩,
    ⟨(HardwareSerial.readBytes rx l ⟨t.port.tx, t.port.rdTimeout, t.port.rxPos + 1⟩).2,
      t.sync_state, false⟩, ?_, hst, ?_⟩
  · show t.port.rxPos + 1 = s1.port.rxPos + 2
    omega
  · simp only [get_reg_mb, e, hb]
    simp

theorem header0_addr_mod (op addr : Nat) : header0 op addr = header0 op (addr % 1024) := by
  rw [header0_eq, header0_eq]
  omega

theorem header1_addr_mod (addr : Nat) : header1 addr = header1 (addr % 1024) := by
  rw [header1_eq, header1_eq]
  omega

theorem send_request_addr_mod (s : RegisterBankMaster) (op addr : Nat) (data : Nat → Nat)
    (len : Nat) :
    send_request s op addr data len = send_request s op (addr % 1024) data len := by
  rw [send_request_eq, send_request_eq, ← header0_addr_mod, ← header1_addr_mod]

theorem reg_op_addr_mod (rx : Nat → Option Nat) (fuel : Nat) (s : RegisterBankMaster)
    (op addr : Nat) (data : Nat → Nat) (len : Nat) :
    reg_op rx fuel s op addr data len = reg_op rx fuel s op (addr % 1024) data len := by
  unfold reg_op
  generalize (if s.sync_state = SYNC_NONE then sync rx fuel s else some (true, s)) = x
  rcases x with _ | ⟨_ | _, s1⟩
  · rfl
  · rfl
  · simp only [send_request_addr_mod s1 op addr data len]

/-- Moving the window of the handshake one read forward over a read that is no marker. -/
theorem marker_window_shift (rx : Nat → Option Nat) (timer count p : Nat)
    (hp : is_marker (rx p) = false) :
    (∃ j, count + j ≤ 200 ∧ is_marker (rx (p + j)) = true ∧
        (∀ i, i < j → is_marker (rx (p + i)) = false) ∧ timer + timeouts rx p j ≤ 10) ↔
      (∃ j, count + 1 + j ≤ 200 ∧ is_marker (rx (p + 1 + j)) = true ∧
        (∀ i, i < j → is_marker (rx (p + 1 + i)) = false) ∧
        timer + (if rx p = none then 1 else 0) + timeouts rx (p + 1) j ≤ 10) := by
  constructor
  · rintro ⟨j, h1, h2, h3, h4⟩
    cases j with
    | zero => simp [hp] at h2
    | succ j =>
      refine ⟨j, by omega, ?_, ?_, ?_⟩
      · rw [← h2]; congr 2; omega
      · intro i hi
        rw [← h3 (i + 1) (by omega)]; congr 2; omega
      · rw [timeouts] at h4
        omega
  · rintro ⟨j, h1, h2, h3, h4⟩
    refine ⟨j + 1, by omega, ?_, ?_, ?_⟩
    · rw [← h2]; congr 2; omega
    · intro i hi
      cases i with
      | zero => simpa using hp
      | succ i =>
        rw [← h3 i (by omega)]; congr 2; omega
    · rw [timeouts]
      omega

/-- The loop of `sync`, entered with `timer ≤ 10` timeouts and `count ≤ 200` reads
already counted, returns, and it succeeds exactly when a marker is read before the
timeouts counted reach 11 and before the reads counted reach 201. -/
theorem sync_loop_succeeds_iff (rx : Nat → Option Nat) (fuel : Nat) :
    ∀ (timer count : Nat) (s : RegisterBankMaster), timer ≤ 10 → count ≤ 200 →
      201 ≤ fuel + count →
        ∃ r t, sync_loop rx fuel timer count s = some (r, t) ∧
          (r = true ↔ ∃ j, count + j ≤ 200 ∧ is_marker (rx (s.port.rxPos + j)) = true ∧
            (∀ i, i < j → is_marker (rx (s.port.rxPos + i)) = false) ∧
            timer + timeouts rx s.port.rxPos j ≤ 10) := by
  induction fuel with
  | zero => intro timer count s _ h1 h2; omega
  | succ fuel ih =>
    intro timer count s ht hc hf
    have e1 : (count + 1) % 256 = count + 1 := by omega
    have e2 : (timer + 1) % 256 = timer + 1 := by omega
    cases h : rx s.port.rxPos with
    | none =>
      have hnm : is_marker (rx s.port.rxPos) = false := by rw [h]; rfl
      rw [marker_window_shift rx timer count s.port.rxPos hnm,
        sync_loop_step_none rx fuel timer count s h, e1, e2]
      simp only [h, if_true]
      by_cases c1 : timer + 1 > 10
      · refine ⟨false, after_read s, by simp [c1], ?_⟩
        simp only [Bool.false_eq_true, false_iff, not_exists]
        intro j hj
        omega
      · by_cases c2 : count + 1 > 200
        · refine ⟨false, after_read s, by simp [c1, c2], ?_⟩
          simp only [Bool.false_eq_true, false_iff, not_exists]
          intro j hj
          omega
        · obtain ⟨r, t, e, hiff⟩ :=
            ih (timer + 1) (count + 1) (after_read s) (by omega) (by omega) (by omega)
          exact ⟨r, t, by simp [c1, c2, e], hiff⟩
    | some b =>
      by_cases hb : b ≠ 0xaa ∧ b ≠ 0x55
      · have hnm : is_marker (rx s.port.rxPos) = false := by
          rw [h]
          simp [is_marker, hb.1, hb.2]
        rw [marker_window_shift rx timer count s.port.rxPos hnm,
          sync_loop_step_some rx fuel timer count s b h, e1]
        simp only [h, if_false, reduceCtorEq, Nat.add_zero]
        by_cases c2 : count + 1 > 200
        · refine ⟨false, after_read s, by simp [hb, c2], ?_⟩
          simp only [Bool.false_eq_true, false_iff, not_exists]
          intro j hj
          omega
        · obtain ⟨r, t, e, hiff⟩ :=
            ih timer (count + 1) (after_read s) ht (by omega) (by omega)
          exact ⟨r, t, by simp [hb, c2, e], hiff⟩
      · have hm : is_marker (rx s.port.rxPos) = true := by
          rw [h]
          simp only [is_marker, Option.some.injEq, Bool.or_eq_true, decide_eq_true_eq]
          by_cases h1 : b = 0xaa
          · exact Or.inl h1
          · by_cases h2 : b = 0x55
            · exact Or.inr h2
            · exact absurd ⟨h1, h2⟩ hb
        rw [sync_loop_step_some rx fuel timer count s b h]
        refine ⟨true, after_read s, by simp [hb], ?_⟩
        simp only [true_iff]
        exact ⟨0, by omega, by simpa using hm, fun i hi => absurd hi (by omega),
          by simp [timeouts]; omega⟩

theorem sync_loop_unbounded_step_none (rx : Nat → Option Nat) (fuel timer count : Nat)
    (s : RegisterBankMaster) (h : rx s.port.rxPos = none) :
    sync_loop_unbounded rx (fuel + 1) timer count s =
      if timer + 1 > 10 then some (false, after_read s)
      else if count + 1 > 200 then some (false, after_read s)
      else sync_loop_unbounded rx fuel (timer + 1) (count + 1) (after_read s) := by
  rw [sync_loop_unbounded, read_byte_none rx s h]
  simp [after_read]

theorem sync_loop_unbounded_step_some (rx : Nat → Option Nat) (fuel timer count : Nat)
    (s : RegisterBankMaster) (b : Nat) (h : rx s.port.rxPos = some b) :
    sync_loop_unbounded rx (fuel + 1) timer count s =
      if b ≠ 0xaa ∧ b ≠ 0x55 then
        if count + 1 > 200 then some (false, after_read s)
        else sync_loop_unbounded rx fuel timer (count + 1) (after_read s)
      else some (true, after_read s) := by
  rw [sync_loop_unbounded, read_byte_some rx s b h]
  simp [after_read]

/-- Entered with `timer ≤ 10` and `count ≤ 200`, the loop of `sync` never wraps a
counter: it is the loop with unbounded counters. -/
theorem sync_loop_eq_unbounded (rx : Nat → Option Nat) (fuel : Nat) :
    ∀ (timer count : Nat) (s : RegisterBankMaster), timer ≤ 10 → count ≤ 200 →
      sync_loop rx fuel timer count s = sync_loop_unbounded rx fuel timer count s := by
  induction fuel with
  | zero => intro timer count s _ _; rfl
  | succ fuel ih =>
    intro timer count s ht hc
    have e1 : (count + 1) % 256 = count + 1 := by omega
    have e2 : (timer + 1) % 256 = timer + 1 := by omega
    cases h : rx s.port.rxPos with
    | none =>
      rw [sync_loop_step_none rx fuel timer count s h,
        sync_loop_unbounded_step_none rx fuel timer count s h, e1, e2]
      by_cases c1 : timer + 1 > 10
      · simp [c1]
      · by_cases c2 : count + 1 > 200
        · simp [c1, c2]
        · simp only [c1, c2, if_false]
          exact ih (timer + 1) (count + 1) (after_read s) (by omega) (by omega)
    | some b =>
      rw [sync_loop_step_some rx fuel timer count s b h,
        sync_loop_unbounded_step_some rx fuel timer count s b h, e1]
      by_cases hb : b ≠ 0xaa ∧ b ≠ 0x55
      · by_cases c2 : count + 1 > 200
        · simp [hb, c2]
        · rw [if_pos hb, if_pos hb, if_neg c2, if_neg c2]
          exact ih timer (count + 1) (after_read s) ht (by omega)
      · simp [hb]

/-! ## Lemmas on the invariant of the link -/

theorem readBytes_port (rx : Nat → Option Nat) :
    ∀ (n : Nat) (p : HardwareSerial),
      (HardwareSerial.readBytes rx n p).2.tx = p.tx ∧
      (HardwareSerial.readBytes rx n p).2.rdTimeout = p.rdTimeout := by
  intro n
  induction n with
  | zero => intro p; simp [HardwareSerial.readBytes]
  | succ n ih =>
    intro p
    cases h : rx p.rxPos with
    | none => simp [HardwareSerial.readBytes, h]
    | some b =>
      have := ih { p with rxPos := p.rxPos + 1 }
      simp only [HardwareSerial.readBytes, h]
      exact this

theorem link_ok_construct (p : HardwareSerial) : link_ok (construct p) := by
  left
  simp [construct, desync]

theorem sync_link_ok (rx : Nat → Option Nat) (fuel : Nat) (s : RegisterBankMaster)
    (r : Bool) (t : RegisterBankMaster) (e : sync rx fuel s = some (r, t)) : link_ok t := by
  obtain ⟨_, h2, h3, _⟩ := sync_frame rx fuel s r t e
  cases r with
  | false => exact Or.inl (by simpa using h2)
  | true => exact Or.inr ⟨by simpa using h2, by simpa using h3⟩

theorem read_ack_link_ok (rx : Nat → Option Nat) (s : RegisterBankMaster)
    (h1 : s.sync_state = SYNC_OK) (h2 : s.port.rdTimeout = 5000) :
    link_ok (read_ack rx s).2 ∧
      ((read_ack rx s).1 = true →
        (read_ack rx s).2.sync_state = SYNC_OK ∧ (read_ack rx s).2.port.rdTimeout = 5000) := by
  cases h : rx s.port.rxPos with
  | none =>
    rw [read_ack_none rx s h]
    exact ⟨Or.inl rfl, fun hf => by simp at hf⟩
  | some b =>
    rw [read_ack_some rx s b h]
    by_cases hb : b = 0xff
    · subst hb
      exact ⟨Or.inl (by simp), fun hf => by simp [ACK] at hf⟩
    · exact ⟨Or.inr ⟨by simp [hb, h1], by simpa using h2⟩,
        fun _ => ⟨by simp [hb, h1], by simpa using h2⟩⟩

theorem reg_op_link_ok (rx : Nat → Option Nat) (fuel : Nat) (s : RegisterBankMaster)
    (op addr : Nat) (data : Nat → Nat) (len : Nat) (hs : link_ok s)
    (r : Bool) (t : RegisterBankMaster) (e : reg_op rx fuel s op addr data len = some (r, t)) :
    link_ok t ∧ (r = true → t.sync_state = SYNC_OK ∧ t.port.rdTimeout = 5000) := by
  have sent : ∀ u : RegisterBankMaster, u.sync_state = SYNC_OK → u.port.rdTimeout = 5000 →
      some (read_ack rx (send_request u op addr data len)) = some (r, t) →
      link_ok t ∧ (r = true → t.sync_state = SYNC_OK ∧ t.port.rdTimeout = 5000) := by
    intro u hu1 hu2 hu
    have hk := read_ack_link_ok rx (send_request u op addr data len)
      (by rw [send_request_sync_state]; exact hu1) (by rw [send_request_eq]; exact hu2)
    simp only [Option.some.injEq] at hu
    rw [hu] at hk
    exact hk
  rcases hs with hs | ⟨hs1, hs2⟩
  · rw [reg_op_unsynced rx fuel s op addr data len hs] at e
    split at e
    · simp at e
    · next v hv =>
      simp only [Option.some.injEq, Prod.mk.injEq] at e
      obtain ⟨rfl, rfl⟩ := e
      exact ⟨sync_link_ok rx fuel s false v hv, fun hf => by simp at hf⟩
    · next v hv =>
      obtain ⟨_, h2, h3, _⟩ := sync_frame rx fuel s true v hv
      exact sent v (by simpa using h2) (by simpa using h3) e
  · rw [reg_op_synced rx fuel s op addr data len (by rw [hs1]; decide)] at e
    exact sent s hs1 hs2 e

theorem link_ok_port (u : RegisterBankMaster) (p : HardwareSerial) (b : Bool)
    (hu : link_ok u) (hp : p.rdTimeout = u.port.rdTimeout) :
    link_ok { port := p, sync_state := u.sync_state, timeout := b } := by
  rcases hu with hu | ⟨hu1, hu2⟩
  · exact Or.inl hu
  · exact Or.inr ⟨hu1, by rw [← hu2]; exact hp⟩

theorem get_reg_8_link_ok (rx : Nat → Option Nat) (fuel : Nat) (s : RegisterBankMaster)
    (addr : Nat) (hs : link_ok s) (v : Nat) (t : RegisterBankMaster)
    (e : get_reg_8 rx fuel s addr = some (v, t)) : link_ok t := by
  unfold get_reg_8 at e
  split at e
  · simp at e
  · next u hu =>
    simp only [Option.some.injEq, Prod.mk.injEq] at e
    obtain ⟨_, rfl⟩ := e
    exact (reg_op_link_ok rx fuel s _ addr _ _ hs false u hu).1
  · next u hu =>
    have hk := (reg_op_link_ok rx fuel s _ addr _ _ hs true u hu).1
    have hp := (readBytes_port rx 1 u.port).2
    dsimp only at e
    split at e <;>
    · simp only [Option.some.injEq, Prod.mk.injEq] at e
      obtain ⟨_, rfl⟩ := e
      exact link_ok_port u _ _ hk hp

theorem get_reg_16_link_ok (rx : Nat → Option Nat) (fuel : Nat) (s : RegisterBankMaster)
    (addr : Nat) (hs : link_ok s) (v : Nat) (t : RegisterBankMaster)
    (e : get_reg_16 rx fuel s addr = some (v, t)) : link_ok t := by
  unfold get_reg_16 at e
  split at e
  · simp at e
  · next u hu =>
    simp only [Option.some.injEq, Prod.mk.injEq] at e
    obtain ⟨_, rfl⟩ := e
    exact (reg_op_link_ok rx fuel s _ addr _ _ hs false u hu).1
  · next u hu =>
    have hk := (reg_op_link_ok rx fuel s _ addr _ _ hs true u hu).1
    have hp := (readBytes_port rx 2 u.port).2
    dsimp only at e
    split at e <;>
    · simp only [Option.some.injEq, Prod.mk.injEq] at e
      obtain ⟨_, rfl⟩ := e
      exact link_ok_port u _ _ hk hp

theorem get_reg_32_link_ok (rx : Nat → Option Nat) (fuel : Nat) (s : RegisterBankMaster)
    (addr : Nat) (hs : link_ok s) (v : Nat) (t : RegisterBankMaster)
    (e : get_reg_32 rx fuel s addr = some (v, t)) : link_ok t := by
  unfold get_reg_32 at e
  split at e
  · simp at e
  · next u hu =>
    simp only [Option.some.injEq, Prod.mk.injEq] at e
    obtain ⟨_, rfl⟩ := e
    exact (reg_op_link_ok rx fuel s _ addr _ _ hs false u hu).1
  · next u hu =>
    have hk := (reg_op_link_ok rx fuel s _ addr _ _ hs true u hu).1
    have hp := (readBytes_port rx 4 u.port).2
    dsimp only at e
    split at e <;>
    · simp only [Option.some.injEq, Prod.mk.injEq] at e
      obtain ⟨_, rfl⟩ := e
      exact link_ok_port u _ _ hk hp

theorem read_byte_port (rx : Nat → Option Nat) (s : RegisterBankMaster) :
    (read_byte rx s).2.sync_state = s.sync_state ∧
      (read_byte rx s).2.port.rdTimeout = s.port.rdTimeout ∧
      (read_byte rx s).2.port.tx = s.port.tx := by
  cases h : rx s.port.rxPos with
  | none => rw [read_byte_none rx s h]; exact ⟨rfl, rfl, rfl⟩
  | some b => rw [read_byte_some rx s b h]; exact ⟨rfl, rfl, rfl⟩

theorem get_reg_mb_link_ok (rx : Nat → Option Nat) (fuel : Nat) (s : RegisterBankMaster)
    (addr : Nat) (hs : link_ok s) (v : MbResult) (t : RegisterBankMaster)
    (e : get_reg_mb rx fuel s addr = some (v, t)) : link_ok t := by
  unfold get_reg_mb at e
  split at e
  · simp at e
  · next u hu =>
    simp only [Option.some.injEq, Prod.mk.injEq] at e
    obtain ⟨_, rfl⟩ := e
    exact (reg_op_link_ok rx fuel s _ addr _ _ hs false u hu).1
  · next u hu =>
    have hk := (reg_op_link_ok rx fuel s _ addr _ _ hs true u hu).1
    obtain ⟨b1, b2, _⟩ := read_byte_port rx { u with timeout := false }
    have hk2 : link_ok (read_byte rx { u with timeout := false }).2 := by
      rcases hk with hk | ⟨hk1, hk2⟩
      · exact Or.inl (by rw [b1]; exact hk)
      · exact Or.inr ⟨by rw [b1]; exact hk1, by rw [b2]; exact hk2⟩
    dsimp only at e
    split at e
    · simp only [Option.some.injEq, Prod.mk.injEq] at e
      obtain ⟨_, rfl⟩ := e
      exact hk2
    · simp only [Option.some.injEq, Prod.mk.injEq] at e
      obtain ⟨_, rfl⟩ := e
      exact link_ok_port _ _ _ hk2 (readBytes_port rx _ _).2

theorem reg_op_returns (rx : Nat → Option Nat) (fuel : Nat) (s : RegisterBankMaster)
    (op addr : Nat) (data : Nat → Nat) (len : Nat) (hfuel : 201 ≤ fuel) :
    ∃ r t, reg_op rx fuel s op addr data len = some (r, t) := by
  by_cases hs : s.sync_state = SYNC_NONE
  · rw [reg_op_unsynced rx fuel s op addr data len hs]
    obtain ⟨r, t, e, _⟩ := sync_returns rx fuel s hfuel
    rw [e]
    cases r with
    | false => exact ⟨false, t, rfl⟩
    | true =>
      exact ⟨(read_ack rx (send_request t op addr data len)).1,
        (read_ack rx (send_request t op addr data len)).2, rfl⟩
  · rw [reg_op_synced rx fuel s op addr data len hs]
    exact ⟨(read_ack rx (send_request s op addr data len)).1,
      (read_ack rx (send_request s op addr data len)).2, rfl⟩

theorem after_call_returns (rx : Nat → Option Nat) (fuel : Nat) (s : RegisterBankMaster)
    (c : Call) (hfuel : 201 ≤ fuel) : ∃ t, after_call rx fuel s c = some t := by
  cases c with
  | sync =>
    obtain ⟨r, t, e, _⟩ := sync_returns rx fuel s hfuel
    exact ⟨t, by simp [after_call, e]⟩
  | get_reg_8 addr =>
    obtain ⟨r, u, e⟩ := reg_op_returns rx fuel s ROP_READ_8 addr NULL 0 hfuel
    cases r with
    | false => exact ⟨u, by simp [after_call, get_reg_8, e]⟩
    | true =>
      simp only [after_call, get_reg_8, e]
      split <;> exact ⟨_, rfl⟩
  | get_reg_16 addr =>
    obtain ⟨r, u, e⟩ := reg_op_returns rx fuel s ROP_READ_16 addr NULL 0 hfuel
    cases r with
    | false => exact ⟨u, by simp [after_call, get_reg_16, e]⟩
    | true =>
      simp only [after_call, get_reg_16, e]
      split <;> exact ⟨_, rfl⟩
  | get_reg_32 addr =>
    obtain ⟨r, u, e⟩ := reg_op_returns rx fuel s ROP_READ_32 addr NULL 0 hfuel
    cases r with
    | false => exact ⟨u, by simp [after_call, get_reg_32, e]⟩
    | true =>
      simp only [after_call, get_reg_32, e]
      split <;> exact ⟨_, rfl⟩
  | get_reg_mb addr =>
    obtain ⟨r, u, e⟩ := reg_op_returns rx fuel s ROP_READ_MB addr NULL 0 hfuel
    cases r with
    | false => exact ⟨u, by simp [after_call, get_reg_mb, e]⟩
    | true =>
      simp only [after_call, get_reg_mb, e]
      split <;> exact ⟨_, rfl⟩
  | set_reg_8 addr val =>
    obtain ⟨r, u, e⟩ := reg_op_returns rx fuel s ROP_WRITE_8 addr (bytes_of val) 1 hfuel
    exact ⟨u, by simp [after_call, set_reg_8, e]⟩
  | set_reg_16 addr val =>
    obtain ⟨r, u, e⟩ := reg_op_returns rx fuel s ROP_WRITE_16 addr (bytes_of val) 2 hfuel
    exact ⟨u, by simp [after_call, set_reg_16, e]⟩
  | set_reg_32 addr val =>
    obtain ⟨r, u, e⟩ := reg_op_returns rx fuel s ROP_WRITE_32 addr (bytes_of val) 4 hfuel
    exact ⟨u, by simp [after_call, set_reg_32, e]⟩
  | set_reg_mb addr data len =>
    obtain ⟨r, u, e⟩ := reg_op_returns rx fuel s ROP_WRITE_MB addr data len hfuel
    exact ⟨u, by simp [after_call, set_reg_mb, e]⟩

theorem after_call_link_ok (rx : Nat → Option Nat) (fuel : Nat) (s t : RegisterBankMaster)
    (c : Call) (hs : link_ok s) (e : after_call rx fuel s c = some t) : link_ok t := by
  have wr : ∀ (op addr : Nat) (data : Nat → Nat) (len : Nat),
      (reg_op rx fuel s op addr data len).map Prod.snd = some t → link_ok t := by
    intro op addr data len h
    simp only [Option.map_eq_some', Prod.exists, exists_eq_right] at h
    obtain ⟨r, h⟩ := h
    exact (reg_op_link_ok rx fuel s op addr data len hs r t h).1
  cases c with
  | sync =>
    simp only [after_call, Option.map_eq_some', Prod.exists, exists_eq_right] at e
    obtain ⟨r, e⟩ := e
    exact sync_link_ok rx fuel s r t e
  | get_reg_8 addr =>
    simp only [after_call, Option.map_eq_some', Prod.exists, exists_eq_right] at e
    obtain ⟨v, e⟩ := e
    exact get_reg_8_link_ok rx fuel s addr hs v t e
  | get_reg_16 addr =>
    simp only [after_call, Option.map_eq_some', Prod.exists, exists_eq_right] at e
    obtain ⟨v, e⟩ := e
    exact get_reg_16_link_ok rx fuel s addr hs v t e
  | get_reg_32 addr =>
    simp only [after_call, Option.map_eq_some', Prod.exists, exists_eq_right] at e
    obtain ⟨v, e⟩ := e
    exact get_reg_32_link_ok rx fuel s addr hs v t e
  | get_reg_mb addr =>
    simp only [after_call, Option.map_eq_some', Prod.exists, exists_eq_right] at e
    obtain ⟨v, e⟩ := e
    exact get_reg_mb_link_ok rx fuel s addr hs v t e
  | set_reg_8 addr val => exact wr _ _ _ _ e
  | set_reg_16 addr val => exact wr _ _ _ _ e
  | set_reg_32 addr val => exact wr _ _ _ _ e
  | set_reg_mb addr data len => exact wr _ _ _ _ e

theorem after_calls_link_ok (rx : Nat → Option Nat) (fuel : Nat) (calls : List Call) :
    ∀ (s t : RegisterBankMaster), link_ok s → after_calls rx fuel s calls = some t →
      link_ok t := by
  induction calls with
  | nil =>
    intro s t hs e
    simp only [after_calls, Option.some.injEq] at e
    rw [← e]
    exact hs
  | cons c cs ih =>
    intro s t hs e
    rw [after_calls] at e
    split at e
    · simp at e
    · next u hu => exact ih u t (after_call_link_ok rx fuel s u c hs hu) e

theorem after_calls_returns (rx : Nat → Option Nat) (fuel : Nat) (calls : List Call)
    (hfuel : 201 ≤ fuel) :
    ∀ (s : RegisterBankMaster), ∃ t, after_calls rx fuel s calls = some t := by
  induction calls with
  | nil => intro s; exact ⟨s, rfl⟩
  | cons c cs ih =>
    intro s
    obtain ⟨u, hu⟩ := after_call_returns rx fuel s c hfuel
    obtain ⟨t, ht⟩ := ih u
    exact ⟨t, by rw [after_calls, hu]; exact ht⟩

/-! ## The claims -/

/-- C1: for an opcode `op < 8` and an address `addr < 1024`, a `reg_op` on a synchronized
link transmits first `b0 = (op << 2) | ((addr >> 8) & 3)` and then `b1 = addr & 0xFF`, and
decoding them as `(b0 >> 2, ((b0 & 3) << 8) | b1)` gives back `(op, addr)`. -/
theorem header_bytes_roundtrip (rx : Nat → Option Nat) (fuel : Nat) (s : RegisterBankMaster)
    (op addr : Nat) (data : Nat → Nat) (len : Nat)
    (hs : s.sync_state = SYNC_OK) (hop : op < 8) (haddr : addr < 1024) :
    (∃ rest, (reg_op rx fuel s op addr data len).map (fun r => r.2.port.tx) =
        some (s.port.tx ++ header0 op addr :: header1 addr :: rest)) ∧
      header0 op addr = (op <<< 2) ||| ((addr >>> 8) &&& 3) ∧
      header1 addr = addr &&& 0xFF ∧
      header0 op addr >>> 2 = op ∧
      ((header0 op addr &&& 3) <<< 8) ||| header1 addr = addr := by
  have hs0 : s.sync_state ≠ SYNC_NONE := by rw [hs]; decide
  refine ⟨⟨(if op = ROP_WRITE_MB then [len] else []) ++ (List.range len).map data, ?_⟩,
    ?_, ?_, ?_, ?_⟩
  · rw [reg_op_synced_tx rx fuel s op addr data len hs0]
    simp only [List.append_assoc, List.cons_append, List.nil_append]
  · rw [header0_eq, and_3_eq_mod, shl2_or_eq_add _ _ (Nat.mod_lt _ (by norm_num)),
      Nat.shiftRight_eq_div_pow]
    omega
  · rw [header1_eq, and_0xff_eq_mod]
  · rw [header0_eq, Nat.shiftRight_eq_div_pow]
    omega
  · rw [header0_eq, header1_eq, and_3_eq_mod, shl8_or_eq_add _ _ (Nat.mod_lt _ (by norm_num))]
    omega

/-- Witness for C1: the multibyte write opcode 7 at the highest address 1023. -/
theorem header_bytes_roundtrip_witness :
    synced_master.sync_state = SYNC_OK ∧ (7 : Nat) < 8 ∧ (1023 : Nat) < 1024 ∧
      header0 7 1023 >>> 2 = 7 ∧ ((header0 7 1023 &&& 3) <<< 8) ||| header1 1023 = 1023 :=
  ⟨by decide, by decide, by decide,
    (header_bytes_roundtrip rx_silent 0 synced_master 7 1023 NULL 0
      (by decide) (by decide) (by decide)).2.2.2⟩

/-- C2: on a synchronized link `reg_op` writes the two header bytes, then the byte `len`
exactly when the opcode is `ROP_WRITE_MB`, then `data[0] … data[len-1]` in order, and
nothing else; a read opcode with `len = 0` writes the two header bytes only, and
`set_reg_8`, `set_reg_16`, `set_reg_32` write 3, 4 and 6 bytes. -/
theorem reg_op_frame_bytes (rx : Nat → Option Nat) (fuel : Nat) (s : RegisterBankMaster)
    (op addr : Nat) (data : Nat → Nat) (len val : Nat) (hs : s.sync_state = SYNC_OK) :
    (reg_op rx fuel s op addr data len).map (fun r => r.2.port.tx) =
        some (s.port.tx ++ [header0 op addr, header1 addr]
          ++ (if op = ROP_WRITE_MB then [len] else []) ++ (List.range len).map data) ∧
      (op < 4 → (reg_op rx fuel s op addr NULL 0).map (fun r => r.2.port.tx) =
        some (s.port.tx ++ [header0 op addr, header1 addr])) ∧
      (set_reg_8 rx fuel s addr val).map (fun r => r.2.port.tx) =
        some (s.port.tx ++ [header0 ROP_WRITE_8 addr, header1 addr, bytes_of val 0]) ∧
      (set_reg_16 rx fuel s addr val).map (fun r => r.2.port.tx) =
        some (s.port.tx ++ [header0 ROP_WRITE_16 addr, header1 addr,
          bytes_of val 0, bytes_of val 1]) ∧
      (set_reg_32 rx fuel s addr val).map (fun r => r.2.port.tx) =
        some (s.port.tx ++ [header0 ROP_WRITE_32 addr, header1 addr,
          bytes_of val 0, bytes_of val 1, bytes_of val 2, bytes_of val 3]) ∧
      (set_reg_mb rx fuel s addr data len).map (fun r => r.2.port.tx) =
        some (s.port.tx ++ [header0 ROP_WRITE_MB addr, header1 addr, len]
          ++ (List.range len).map data) := by
  have hs0 : s.sync_state ≠ SYNC_NONE := by rw [hs]; decide
  refine ⟨reg_op_synced_tx rx fuel s op addr data len hs0, ?_, ?_, ?_, ?_, ?_⟩
  · intro hop
    have h7 : op ≠ ROP_WRITE_MB := by
      intro h
      rw [h] at hop
      exact absurd hop (by decide)
    rw [reg_op_synced_tx rx fuel s op addr NULL 0 hs0]
    simp [h7]
  · unfold set_reg_8
    rw [reg_op_synced_tx rx fuel s _ addr _ 1 hs0]
    simp [ROP_WRITE_8, ROP_WRITE_MB, List.range_succ]
  · unfold set_reg_16
    rw [reg_op_synced_tx rx fuel s _ addr _ 2 hs0]
    simp [ROP_WRITE_16, ROP_WRITE_MB, List.range_succ]
  · unfold set_reg_32
    rw [reg_op_synced_tx rx fuel s _ addr _ 4 hs0]
    simp [ROP_WRITE_32, ROP_WRITE_MB, List.range_succ]
  · unfold set_reg_mb
    rw [reg_op_synced_tx rx fuel s _ addr data len hs0]
    simp

/-- Witness for C2: a three-byte multibyte write at address 0x155 on a synchronized link. -/
theorem reg_op_frame_bytes_witness :
    synced_master.sync_state = SYNC_OK ∧
      (set_reg_mb rx_silent 0 synced_master 0x155 (bytes_of 0x030201) 3).map
        (fun r => r.2.port.tx) = some [0x1d, 0x55, 3, 1, 2, 3] :=
  ⟨by decide,
    (reg_op_frame_bytes rx_silent 0 synced_master 0 0x155 (bytes_of 0x030201) 3 0
      (by decide)).2.2.2.2.2⟩

/-- C3: when the link is synchronized on entry, or the handshake run on entry succeeds
(`s1` is the synchronized state the request is sent from), `reg_op` returns, and it
returns `true` exactly when the acknowledgement read received the byte `ACK` (6); the same
holds for `set_reg_8`, `set_reg_16`, `set_reg_32` and `set_reg_mb`. -/
theorem reg_op_true_iff_ack (rx : Nat → Option Nat) (fuel : Nat) (s s1 : RegisterBankMaster)
    (op addr : Nat) (data : Nat → Nat) (len val : Nat)
    (h : (s.sync_state = SYNC_OK ∧ s1 = s) ∨
      (s.sync_state = SYNC_NONE ∧ sync rx fuel s = some (true, s1))) :
    (∃ r t, reg_op rx fuel s op addr data len = some (r, t) ∧
        (r = true ↔ rx s1.port.rxPos = some ACK)) ∧
      (∃ r t, set_reg_8 rx fuel s addr val = some (r, t) ∧
        (r = true ↔ rx s1.port.rxPos = some ACK)) ∧
      (∃ r t, set_reg_16 rx fuel s addr val = some (r, t) ∧
        (r = true ↔ rx s1.port.rxPos = some ACK)) ∧
      (∃ r t, set_reg_32 rx fuel s addr val = some (r, t) ∧
        (r = true ↔ rx s1.port.rxPos = some ACK)) ∧
      (∃ r t, set_reg_mb rx fuel s addr data len = some (r, t) ∧
        (r = true ↔ rx s1.port.rxPos = some ACK)) := by
  have key : ∀ (op : Nat) (data : Nat → Nat) (len : Nat),
      ∃ r t, reg_op rx fuel s op addr data len = some (r, t) ∧
        (r = true ↔ rx s1.port.rxPos = some ACK) := by
    intro op data len
    refine ⟨(read_ack rx (send_request s1 op addr data len)).1,
      (read_ack rx (send_request s1 op addr data len)).2,
      reg_op_entry rx fuel s s1 op addr data len h, ?_⟩
    rw [read_ack_true_iff, send_request_rxPos]
  exact ⟨key op data len, key _ _ _, key _ _ _, key _ _ _, key _ _ _⟩

/-- Witness for C3: a synchronized link whose remote side answers `ACK`. -/
theorem reg_op_true_iff_ack_witness :
    ((synced_master.sync_state = SYNC_OK ∧ synced_master = synced_master) ∨
      (synced_master.sync_state = SYNC_NONE ∧
        sync (rx_const ACK) 0 synced_master = some (true, synced_master))) ∧
      ∃ r t, reg_op (rx_const ACK) 0 synced_master ROP_WRITE_8 5 (bytes_of 9) 1 = some (r, t) ∧
        (r = true ↔ rx_const ACK synced_master.port.rxPos = some ACK) :=
  ⟨Or.inl ⟨by decide, rfl⟩,
    (reg_op_true_iff_ack (rx_const ACK) 0 synced_master synced_master ROP_WRITE_8 5
      (bytes_of 9) 1 9 (Or.inl ⟨by decide, rfl⟩)).1⟩

/-- C4 as stated fails: on a synchronized link answered with the received byte `0xff`
(a byte different from `ACK`), `set_reg_8` returns `false` and the link is left
unsynchronized, not synchronized. -/
theorem set_reg_8_received_0xff_desyncs :
    synced_master.sync_state = SYNC_OK ∧
      rx_const 0xff synced_master.port.rxPos = some 0xff ∧ (0xff : Nat) ≠ ACK ∧
      (set_reg_8 (rx_const 0xff) 0 synced_master 0 0).map (fun r => (r.1, r.2.sync_state)) =
        some (false, SYNC_NONE) ∧
      SYNC_NONE ≠ SYNC_OK := by
  decide

/-- C4, amended: on a synchronized link, when the acknowledgement read receives a byte
`b` other than `ACK`, every `set_reg_*` call returns `false`; the link stays synchronized
when `b` is not `0xff` (so for `NAK`), and is left unsynchronized when `b` is `0xff`. -/
theorem set_reg_non_ack (rx : Nat → Option Nat) (fuel : Nat) (s : RegisterBankMaster)
    (addr val : Nat) (data : Nat → Nat) (len b : Nat)
    (hs : s.sync_state = SYNC_OK) (hb : rx s.port.rxPos = some b) (h6 : b ≠ ACK) :
    (set_reg_8 rx fuel s addr val).map (fun r => (r.1, r.2.sync_state)) =
        some (false, if b = 0xff then SYNC_NONE else SYNC_OK) ∧
      (set_reg_16 rx fuel s addr val).map (fun r => (r.1, r.2.sync_state)) =
        some (false, if b = 0xff then SYNC_NONE else SYNC_OK) ∧
      (set_reg_32 rx fuel s addr val).map (fun r => (r.1, r.2.sync_state)) =
        some (false, if b = 0xff then SYNC_NONE else SYNC_OK) ∧
      (set_reg_mb rx fuel s addr data len).map (fun r => (r.1, r.2.sync_state)) =
        some (false, if b = 0xff then SYNC_NONE else SYNC_OK) := by
  have hs0 : s.sync_state ≠ SYNC_NONE := by rw [hs]; decide
  have key : ∀ (op : Nat) (data : Nat → Nat) (len : Nat),
      (reg_op rx fuel s op addr data len).map (fun r => (r.1, r.2.sync_state)) =
        some (false, if b = 0xff then SYNC_NONE else SYNC_OK) := by
    intro op data len
    rw [reg_op_synced rx fuel s op addr data len hs0,
      read_ack_some rx (send_request s op addr data len) b
        (by rw [send_request_rxPos]; exact hb)]
    simp [h6, send_request_sync_state, hs]
  exact ⟨key _ _ _, key _ _ _, key _ _ _, key _ _ _⟩

/-- Witness for C4, amended: a synchronized link whose remote side answers `NAK`. -/
theorem set_reg_non_ack_witness :
    synced_master.sync_state = SYNC_OK ∧
      rx_const NAK synced_master.port.rxPos = some NAK ∧ NAK ≠ ACK ∧
      (set_reg_8 (rx_const NAK) 0 synced_master 5 9).map (fun r => (r.1, r.2.sync_state)) =
        some (false, SYNC_OK) :=
  ⟨by decide, rfl, by decide,
    (set_reg_non_ack (rx_const NAK) 0 synced_master 5 9 NULL 0 NAK
      (by decide) rfl (by decide)).1⟩

/-- What does hold on an acknowledgement timeout: when the request of a register
operation has been transmitted (from the synchronized state `s1`) and the acknowledgement
read times out, `reg_op`, the `set_reg_*` and `get_reg_mb` return `false`, every operation
leaves the link unsynchronized, and the next `reg_op` runs the handshake first, so the
first byte it writes is the handshake marker. The values `get_reg_8/16/32` return in this
case are not part of this statement. -/
theorem ack_timeout_forces_resync (rx : Nat → Option Nat) (fuel : Nat)
    (s s1 : RegisterBankMaster) (op addr : Nat) (data : Nat → Nat) (len val : Nat)
    (h : (s.sync_state = SYNC_OK ∧ s1 = s) ∨
      (s.sync_state = SYNC_NONE ∧ sync rx fuel s = some (true, s1)))
    (hto : rx s1.port.rxPos = none) :
    (∃ t, reg_op rx fuel s op addr data len = some (false, t) ∧ t.sync_state = SYNC_NONE ∧
        ∀ (op2 addr2 : Nat) (data2 : Nat → Nat) (len2 : Nat),
          reg_op rx fuel t op2 addr2 data2 len2 =
            (match sync rx fuel t with
              | none => none
              | some (false, u) => some (false, u)
              | some (true, u) => some (read_ack rx (send_request u op2 addr2 data2 len2))) ∧
          ∀ (r : Bool) (u : RegisterBankMaster),
            reg_op rx fuel t op2 addr2 data2 len2 = some (r, u) →
              ∃ rest, u.port.tx = t.port.tx ++ 0xaa :: rest) ∧
      (set_reg_8 rx fuel s addr val).map (fun r => (r.1, r.2.sync_state)) =
        some (false, SYNC_NONE) ∧
      (set_reg_16 rx fuel s addr val).map (fun r => (r.1, r.2.sync_state)) =
        some (false, SYNC_NONE) ∧
      (set_reg_32 rx fuel s addr val).map (fun r => (r.1, r.2.sync_state)) =
        some (false, SYNC_NONE) ∧
      (set_reg_mb rx fuel s addr data len).map (fun r => (r.1, r.2.sync_state)) =
        some (false, SYNC_NONE) ∧
      (get_reg_mb rx fuel s addr).map (fun r => (r.1.ok, r.2.sync_state)) =
        some (false, SYNC_NONE) ∧
      (get_reg_8 rx fuel s addr).map (fun r => r.2.sync_state) = some SYNC_NONE ∧
      (get_reg_16 rx fuel s addr).map (fun r => r.2.sync_state) = some SYNC_NONE ∧
      (get_reg_32 rx fuel s addr).map (fun r => r.2.sync_state) = some SYNC_NONE := by
  have key : ∀ (op : Nat) (data : Nat → Nat) (len : Nat),
      ∃ t, reg_op rx fuel s op addr data len = some (false, t) ∧ t.sync_state = SYNC_NONE :=
    fun op data len => reg_op_ack_timeout rx fuel s s1 op addr data len h hto
  have keyw : ∀ (op : Nat) (data : Nat → Nat) (len : Nat),
      (reg_op rx fuel s op addr data len).map (fun r => (r.1, r.2.sync_state)) =
        some (false, SYNC_NONE) := by
    intro op data len
    obtain ⟨t, e, ht⟩ := key op data len
    simp [e, ht]
  refine ⟨?_, keyw _ _ _, keyw _ _ _, keyw _ _ _, keyw _ _ _, ?_, ?_, ?_, ?_⟩
  · obtain ⟨t, e, ht⟩ := key op data len
    exact ⟨t, e, ht, fun op2 addr2 data2 len2 =>
      ⟨reg_op_unsynced rx fuel t op2 addr2 data2 len2 ht,
        fun r u => reg_op_unsynced_tx rx fuel t op2 addr2 data2 len2 ht r u⟩⟩
  · obtain ⟨t, e, ht⟩ := key ROP_READ_MB NULL 0
    simp [get_reg_mb, e, ht]
  · obtain ⟨t, e, ht⟩ := key ROP_READ_8 NULL 0
    simp [get_reg_8, e, ht]
  · obtain ⟨t, e, ht⟩ := key ROP_READ_16 NULL 0
    simp [get_reg_16, e, ht]
  · obtain ⟨t, e, ht⟩ := key ROP_READ_32 NULL 0
    simp [get_reg_32, e, ht]

/-- An instance of the statement above: a synchronized link whose remote side is
silent. -/
theorem ack_timeout_forces_resync_witness :
    ((synced_master.sync_state = SYNC_OK ∧ synced_master = synced_master) ∨
      (synced_master.sync_state = SYNC_NONE ∧
        sync rx_silent 201 synced_master = some (true, synced_master))) ∧
      rx_silent synced_master.port.rxPos = none ∧
      (set_reg_8 rx_silent 201 synced_master 5 9).map (fun r => (r.1, r.2.sync_state)) =
        some (false, SYNC_NONE) :=
  ⟨Or.inl ⟨by decide, rfl⟩, rfl,
    (ack_timeout_forces_resync rx_silent 201 synced_master synced_master ROP_WRITE_8 5
      (bytes_of 9) 1 9 (Or.inl ⟨by decide, rfl⟩) rfl).2.1⟩

/-- C5, the code at a failing input: on a synchronized link whose remote side is silent,
and on a freshly constructed master whose handshake is answered and whose remote side is
silent afterwards, `get_reg_16` and `get_reg_32` transmit their request, the
acknowledgement read times out and the link is left unsynchronized, but the value
returned is `0xff`, which is neither of the failure values `0xffff` and `0xffffffff`. -/
theorem ack_timeout_read_16_32_returns_0xff :
    synced_master.sync_state = SYNC_OK ∧ rx_silent synced_master.port.rxPos = none ∧
      (get_reg_16 rx_silent 0 synced_master 0).map
          (fun r => (r.1, r.2.sync_state, r.2.port.tx, r.2.port.rxPos)) =
        some (0xff, SYNC_NONE, [header0 ROP_READ_16 0, header1 0], 1) ∧
      (get_reg_32 rx_silent 0 synced_master 0).map
          (fun r => (r.1, r.2.sync_state, r.2.port.tx, r.2.port.rxPos)) =
        some (0xff, SYNC_NONE, [header0 ROP_READ_32 0, header1 0], 1) ∧
      (get_reg_16 (rx_after_handshake rx_silent) 201 (construct fresh_port) 0).map
          (fun r => (r.1, r.2.sync_state, r.2.port.rxPos)) = some (0xff, SYNC_NONE, 2) ∧
      (get_reg_32 (rx_after_handshake rx_silent) 201 (construct fresh_port) 0).map
          (fun r => (r.1, r.2.sync_state, r.2.port.rxPos)) = some (0xff, SYNC_NONE, 2) ∧
      (0xff : Nat) ≠ 0xffff ∧ (0xff : Nat) ≠ 0xffffffff := by
  decide

/-- C6, the code at failing inputs: on a freshly constructed master whose handshake is
answered, an acknowledgement timeout or a `NAK` makes `get_reg_16` and `get_reg_32` return
`0xff`, and so does a failed handshake; `0xff` is neither `0xffff` nor `0xffffffff`. -/
theorem get_reg_16_32_failure_value :
    (get_reg_16 (rx_sync_then none) 201 (construct fresh_port) 0).map Prod.fst = some 0xff ∧
      (get_reg_32 (rx_sync_then none) 201 (construct fresh_port) 0).map Prod.fst = some 0xff ∧
      (get_reg_16 (rx_sync_then (some NAK)) 201 (construct fresh_port) 0).map Prod.fst =
        some 0xff ∧
      (get_reg_32 (rx_sync_then (some NAK)) 201 (construct fresh_port) 0).map Prod.fst =
        some 0xff ∧
      (get_reg_16 rx_silent 201 (construct fresh_port) 0).map Prod.fst = some 0xff ∧
      (get_reg_32 rx_silent 201 (construct fresh_port) 0).map Prod.fst = some 0xff ∧
      (0xff : Nat) ≠ 0xffff ∧ (0xff : Nat) ≠ 0xffffffff := by
  decide

/-- C7: when the request has been transmitted (from the synchronized state `s1`) and
acknowledged with `ACK`, and the `k`-th single-byte read of the payload times out, then
`get_reg_8` returns `0xff` if `k < 1`, `get_reg_16` returns `0xffff` if `k < 2` and
`get_reg_32` returns `0xffffffff` if `k < 4`. -/
theorem get_reg_short_payload (rx : Nat → Option Nat) (fuel : Nat)
    (s s1 : RegisterBankMaster) (addr k : Nat)
    (h : (s.sync_state = SYNC_OK ∧ s1 = s) ∨
      (s.sync_state = SYNC_NONE ∧ sync rx fuel s = some (true, s1)))
    (hack : rx s1.port.rxPos = some ACK) (hk : rx (s1.port.rxPos + 1 + k) = none) :
    (k < 1 → (get_reg_8 rx fuel s addr).map Prod.fst = some 0xff) ∧
      (k < 2 → (get_reg_16 rx fuel s addr).map Prod.fst = some 0xffff) ∧
      (k < 4 → (get_reg_32 rx fuel s addr).map Prod.fst = some 0xffffffff) := by
  refine ⟨?_, ?_, ?_⟩
  · intro hlt
    obtain ⟨t, e, hp, _⟩ := reg_op_acked rx fuel s s1 ROP_READ_8 addr NULL 0 h hack
    have hl := readBytes_short rx 1 t.port k hlt (by rw [hp]; exact hk)
    have hne : ¬ (HardwareSerial.readBytes rx 1 t.port).1.length = 1 := by omega
    simp [get_reg_8, e, hne]
  · intro hlt
    obtain ⟨t, e, hp, _⟩ := reg_op_acked rx fuel s s1 ROP_READ_16 addr NULL 0 h hack
    have hl := readBytes_short rx 2 t.port k hlt (by rw [hp]; exact hk)
    have hne : ¬ (HardwareSerial.readBytes rx 2 t.port).1.length = 2 := by omega
    simp [get_reg_16, e, hne]
  · intro hlt
    obtain ⟨t, e, hp, _⟩ := reg_op_acked rx fuel s s1 ROP_READ_32 addr NULL 0 h hack
    have hl := readBytes_short rx 4 t.port k hlt (by rw [hp]; exact hk)
    have hne : ¬ (HardwareSerial.readBytes rx 4 t.port).1.length = 4 := by omega
    simp [get_reg_32, e, hne]

/-- Witness for C7: the remote side acknowledges, sends one payload byte and falls
silent, so the 16-bit and the 32-bit read are short at their second byte. -/
theorem get_reg_short_payload_witness :
    ((synced_master.sync_state = SYNC_OK ∧ synced_master = synced_master) ∨
      (synced_master.sync_state = SYNC_NONE ∧
        sync (fun i => if i < 2 then some ACK else none) 0 synced_master =
          some (true, synced_master))) ∧
      (fun i => if i < 2 then some ACK else none) synced_master.port.rxPos = some ACK ∧
      (fun i => if i < 2 then some ACK else none) (synced_master.port.rxPos + 1 + 1) = none ∧
      ((1 : Nat) < 2 →
        (get_reg_16 (fun i => if i < 2 then some ACK else none) 0 synced_master 7).map
          Prod.fst = some 0xffff) :=
  ⟨Or.inl ⟨by decide, rfl⟩, rfl, rfl,
    (get_reg_short_payload (fun i => if i < 2 then some ACK else none) 0 synced_master
      synced_master 7 1 (Or.inl ⟨by decide, rfl⟩) rfl rfl).2.1⟩

/-- C8 as stated fails: on a freshly constructed (unsynchronized) master, `sync` writes
the marker `0xaa` alone; the bytes written are not a burst of 34 `0xff` and the marker. -/
theorem sync_writes_marker_only :
    (construct fresh_port).sync_state = SYNC_NONE ∧
      (sync_begin (construct fresh_port)).port.tx = (construct fresh_port).port.tx ++ [0xaa] ∧
      (sync (rx_const 0x55) 201 (construct fresh_port)).map (fun r => r.2.port.tx) =
        some ((construct fresh_port).port.tx ++ [0xaa]) ∧
      (construct fresh_port).port.tx ++ [0xaa] ≠
        (construct fresh_port).port.tx ++ (List.replicate 34 0xff ++ [0xaa]) := by
  decide

/-- C8, amended: a call of `sync` on an unsynchronized link writes exactly one byte, the
marker `0xaa`, before it reads anything, and nothing afterwards: the unforced `desync` in
it writes nothing. The burst of exactly 34 (`MAX_MB_SIZE + 5`) bytes `0xff` is what a
forced `desync` writes, as in the constructor. -/
theorem sync_unsynced_writes (rx : Nat → Option Nat) (fuel : Nat) (s : RegisterBankMaster)
    (p : HardwareSerial) (hs : s.sync_state = SYNC_NONE) (hfuel : 201 ≤ fuel) :
    (desync false s).port.tx = s.port.tx ∧
      (sync_begin s).port.tx = s.port.tx ++ [0xaa] ∧
      (sync_begin s).port.rxPos = s.port.rxPos ∧
      (∃ r t, sync rx fuel s = some (r, t) ∧ t.port.tx = s.port.tx ++ [0xaa]) ∧
      (desync true s).port.tx = s.port.tx ++ List.replicate (MAX_MB_SIZE + 5) 0xff ∧
      MAX_MB_SIZE + 5 = 34 ∧
      (construct p).port.tx = p.tx ++ List.replicate 34 0xff := by
  refine ⟨by rw [desync_unforced_unsynced s hs], by rw [sync_begin_eq], by rw [sync_begin_eq],
    ?_, by rw [desync_forced]; rfl, rfl, ?_⟩
  · obtain ⟨r, t, e, _⟩ := sync_returns rx fuel s hfuel
    exact ⟨r, t, e, (sync_frame rx fuel s r t e).1⟩
  · simp [construct, desync_forced, HardwareSerial.setTimeout]

/-- Witness for C8, amended: the handshake of a freshly constructed master. -/
theorem sync_unsynced_writes_witness :
    (construct fresh_port).sync_state = SYNC_NONE ∧ 201 ≤ 201 ∧
      (sync_begin (construct fresh_port)).port.tx = (construct fresh_port).port.tx ++ [0xaa] :=
  ⟨by decide, by decide,
    (sync_unsynced_writes rx_silent 201 (construct fresh_port) fresh_port
      (by decide) (by decide)).2.1⟩

/-- C9 as stated fails: on a remote side that never answers, `sync` on a freshly
constructed master returns `false` after 11 reads, not 10; with a budget of 10 loop
iterations (10 timed-out reads) it has not returned yet. -/
theorem sync_silent_reads_eleven :
    (sync rx_silent 201 (construct fresh_port)).map
        (fun r => (r.1, r.2.port.rxPos - (construct fresh_port).port.rxPos)) =
        some (false, 11) ∧
      sync rx_silent 10 (construct fresh_port) = none ∧ (11 : Nat) ≠ 10 := by
  decide

/-- C9, amended: when the first 11 reads of the handshake all time out, `sync` returns
`false` after exactly 11 timed-out reads: with a budget of 10 loop iterations, one read
each, it has not returned, and with any budget of at least 11 it returns `false` having
performed 11 reads, whatever the remote side would do on a 12th read. -/
theorem sync_all_timeouts (rx : Nat → Option Nat) (fuel : Nat) (s : RegisterBankMaster)
    (h : ∀ i, i < 11 → rx (s.port.rxPos + i) = none) :
    (fuel ≤ 10 → sync rx fuel s = none) ∧
      (11 ≤ fuel → ∃ t, sync rx fuel s = some (false, t) ∧
        t.port.rxPos = s.port.rxPos + 11) := by
  obtain ⟨a, b⟩ := sync_loop_timeouts rx 10 (Nat.le_refl 10) fuel (sync_begin s) (by
    intro i hi
    rw [sync_begin_eq]
    exact h i (by omega))
  refine ⟨fun hf => ?_, fun hf => ?_⟩
  · have := a hf
    simp only [Nat.sub_self] at this
    simp [sync, this]
  · obtain ⟨t, e, ht⟩ := b (by omega)
    simp only [Nat.sub_self] at e
    refine ⟨t, by simp [sync, e], ?_⟩
    rw [ht, sync_begin_eq]

/-- Witness for C9, amended: the remote side that never answers. -/
theorem sync_all_timeouts_witness :
    (∀ i, i < 11 → rx_silent (synced_master.port.rxPos + i) = none) ∧
      ((10 : Nat) ≤ 10 → sync rx_silent 10 synced_master = none) ∧
      ((11 : Nat) ≤ 11 → ∃ t, sync rx_silent 11 synced_master = some (false, t) ∧
        t.port.rxPos = synced_master.port.rxPos + 11) :=
  ⟨fun _ _ => rfl,
    (sync_all_timeouts rx_silent 10 synced_master (fun _ _ => rfl)).1,
    (sync_all_timeouts rx_silent 11 synced_master (fun _ _ => rfl)).2⟩

/-- C10: when no read times out and the remote side delivers `n` bytes that are neither
`0xaa` nor `0x55` and then a marker byte, `sync` returns, and it succeeds exactly when
`n ≤ 200`; so it succeeds for `n = 199` and fails for `n = 201`. -/
theorem sync_noise_then_marker (rx : Nat → Option Nat) (fuel : Nat) (s : RegisterBankMaster)
    (n m : Nat) (hfuel : 201 ≤ fuel)
    (hnoise : ∀ i, i < n → ∃ b, rx (s.port.rxPos + i) = some b ∧ b ≠ 0xaa ∧ b ≠ 0x55)
    (hm : rx (s.port.rxPos + n) = some m) (hmark : m = 0xaa ∨ m = 0x55) :
    (∃ r t, sync rx fuel s = some (r, t) ∧ (r = true ↔ n ≤ 200)) ∧
      (n = 199 → ∃ t, sync rx fuel s = some (true, t)) ∧
      (n = 201 → ∃ t, sync rx fuel s = some (false, t)) := by
  obtain ⟨t, e⟩ := sync_loop_noise rx n fuel 0 0 (sync_begin s) (by omega) (by omega)
    (by rw [sync_begin_eq]; exact hnoise) (by rw [sync_begin_eq]; exact ⟨m, hm, hmark⟩)
  rw [Nat.zero_add] at e
  have key : ∃ t, sync rx fuel s = some (decide (n ≤ 200), t) := by
    by_cases hn : n ≤ 200
    · simp only [hn, decide_True] at e ⊢
      exact ⟨_, by simp [sync, e]; rfl⟩
    · simp only [hn, decide_False] at e ⊢
      exact ⟨t, by simp [sync, e]⟩
  obtain ⟨u, hu⟩ := key
  refine ⟨⟨decide (n ≤ 200), u, hu, by simp⟩, ?_, ?_⟩
  · intro hn
    subst hn
    exact ⟨u, hu⟩
  · intro hn
    subst hn
    exact ⟨u, hu⟩

/-- Witness for C10: 199 bytes `0x00` and then the marker `0xaa`. -/
theorem sync_noise_then_marker_witness :
    (201 ≤ 201) ∧
      (∀ i, i < 199 →
        ∃ b, rx_noise 199 (synced_master.port.rxPos + i) = some b ∧ b ≠ 0xaa ∧ b ≠ 0x55) ∧
      rx_noise 199 (synced_master.port.rxPos + 199) = some 0xaa ∧
      ((199 : Nat) = 199 → ∃ t, sync (rx_noise 199) 201 synced_master = some (true, t)) :=
  ⟨by decide,
    fun i hi => ⟨0, by simp [rx_noise, synced_master, hi], by decide, by decide⟩,
    by simp [rx_noise, synced_master],
    (sync_noise_then_marker (rx_noise 199) 201 synced_master 199 0xaa (by decide)
      (fun i hi => ⟨0, by simp [rx_noise, synced_master, hi], by decide, by decide⟩)
      (by simp [rx_noise, synced_master]) (Or.inl rfl)).2.1⟩

/-- C11: when the first read of the handshake receives `0x55` or `0xaa`, `sync` returns
`true` having consumed exactly that one read, with the link synchronized and the read
timeout at 5000 ms; and whenever `sync` returns `false` the link is unsynchronized. -/
theorem sync_marker_first (rx : Nat → Option Nat) (fuel : Nat) (s : RegisterBankMaster)
    (m : Nat) (hfuel : 1 ≤ fuel) (hm : rx s.port.rxPos = some m)
    (hmark : m = 0x55 ∨ m = 0xaa) :
    (∃ t, sync rx fuel s = some (true, t) ∧ t.port.rxPos = s.port.rxPos + 1 ∧
        t.sync_state = SYNC_OK ∧ t.port.rdTimeout = 5000) ∧
      (∀ (rx2 : Nat → Option Nat) (fuel2 : Nat) (s2 t2 : RegisterBankMaster),
        sync rx2 fuel2 s2 = some (false, t2) → t2.sync_state = SYNC_NONE) := by
  refine ⟨?_, ?_⟩
  · cases fuel with
    | zero => omega
    | succ fuel =>
      have hm2 : rx (sync_begin s).port.rxPos = some m := by rw [sync_begin_eq]; exact hm
      have hnot : ¬ (m ≠ 0xaa ∧ m ≠ 0x55) := by
        rcases hmark with rfl | rfl <;> simp
      have e : sync_loop rx (fuel + 1) 0 0 (sync_begin s) =
          some (true, after_read (sync_begin s)) := by
        rw [sync_loop_step_some rx fuel 0 0 (sync_begin s) m hm2]
        simp [hnot]
      refine ⟨⟨(after_read (sync_begin s)).port.setTimeout 5000, SYNC_OK,
        (after_read (sync_begin s)).timeout⟩, by simp [sync, e], ?_, rfl, rfl⟩
      rw [sync_begin_eq]
      rfl
  · intro rx2 fuel2 s2 t2 e
    simpa using (sync_frame rx2 fuel2 s2 false t2 e).2.1

/-- Witness for C11: a freshly constructed master whose handshake is answered `0x55`. -/
theorem sync_marker_first_witness :
    (1 ≤ 1) ∧ rx_const 0x55 (construct fresh_port).port.rxPos = some 0x55 ∧
      ((0x55 : Nat) = 0x55 ∨ (0x55 : Nat) = 0xaa) ∧
      ∃ t, sync (rx_const 0x55) 1 (construct fresh_port) = some (true, t) ∧
        t.port.rxPos = (construct fresh_port).port.rxPos + 1 ∧
        t.sync_state = SYNC_OK ∧ t.port.rdTimeout = 5000 :=
  ⟨by decide, rfl, Or.inl rfl,
    (sync_marker_first (rx_const 0x55) 1 (construct fresh_port) 0x55 (by decide) rfl
      (Or.inl rfl)).1⟩

set_option maxRecDepth 100000 in
/-- C12, the code at a failing input: when the remote side acknowledges, announces 30
payload bytes and sends 30 bytes `0x11`, `get_reg_mb` returns `true` with `*len = 30` and
stores all 30 bytes in the caller's buffer, more than the 29 (`MAX_MB_SIZE`) bytes the
header asks the buffer to hold; so it does on a freshly constructed master after the
handshake, and with 255 bytes announced and sent it stores 255. -/
theorem get_reg_mb_overruns_documented_buffer :
    synced_master.sync_state = SYNC_OK ∧
      (get_reg_mb (rx_multibyte 30 30) 0 synced_master 0).map
          (fun r => (r.1.ok, r.1.len, r.1.data)) =
        some (true, some 30, List.replicate 30 0x11) ∧
      (get_reg_mb (rx_after_handshake (rx_multibyte 30 30)) 201 (construct fresh_port) 0).map
          (fun r => (r.1.ok, r.1.len, r.1.data)) =
        some (true, some 30, List.replicate 30 0x11) ∧
      (get_reg_mb (rx_multibyte 255 255) 0 synced_master 0).map
          (fun r => (r.1.ok, r.1.len, r.1.data)) =
        some (true, some 255, List.replicate 255 0x11) ∧
      (List.replicate 30 0x11).length = 30 ∧ ¬ (30 ≤ MAX_MB_SIZE) ∧ MAX_MB_SIZE = 29 := by
  decide

/-- C13 as stated fails: `set_reg_mb` with `len = 30` on a synchronized link is neither
rejected nor clipped: the frame carries the length byte 30 and 30 payload bytes. -/
theorem set_reg_mb_len_30_transmitted :
    (set_reg_mb (rx_const ACK) 0 synced_master 0 (fun i => i) 30).map
        (fun r => (r.1, r.2.port.tx)) =
        some (true, [header0 ROP_WRITE_MB 0, header1 0, 30] ++ List.range 30) ∧
      (List.range 30).length = 30 ∧ ¬ (30 ≤ 29) := by
  decide

/-- C13, amended: `set_reg_mb` neither rejects nor clips: whenever its request is
transmitted (from the synchronized state `s1`), the frame carries the length byte `len`
followed by exactly `len` payload bytes, whatever `len` is; so it carries a length byte
of at most 29 and at most 29 payload bytes when the caller passes `len ≤ 29`. -/
theorem set_reg_mb_frame (rx : Nat → Option Nat) (fuel : Nat) (s s1 : RegisterBankMaster)
    (addr : Nat) (data : Nat → Nat) (len : Nat)
    (h : (s.sync_state = SYNC_OK ∧ s1 = s) ∨
      (s.sync_state = SYNC_NONE ∧ sync rx fuel s = some (true, s1))) :
    ∃ r t, set_reg_mb rx fuel s addr data len = some (r, t) ∧
      t.port.tx = s1.port.tx ++ [header0 ROP_WRITE_MB addr, header1 addr, len]
        ++ (List.range len).map data ∧
      ((List.range len).map data).length = len ∧
      (len ≤ 29 → ((List.range len).map data).length ≤ 29) := by
  refine ⟨(read_ack rx (send_request s1 ROP_WRITE_MB addr data len)).1,
    (read_ack rx (send_request s1 ROP_WRITE_MB addr data len)).2,
    reg_op_entry rx fuel s s1 ROP_WRITE_MB addr data len h, ?_, by simp, fun h29 => by simpa⟩
  rw [read_ack_port, send_request_eq]
  simp

/-- Witness for C13, amended: a two-byte multibyte write on a synchronized link. -/
theorem set_reg_mb_frame_witness :
    ((synced_master.sync_state = SYNC_OK ∧ synced_master = synced_master) ∨
      (synced_master.sync_state = SYNC_NONE ∧
        sync (rx_const ACK) 0 synced_master = some (true, synced_master))) ∧
      ∃ r t, set_reg_mb (rx_const ACK) 0 synced_master 5 (bytes_of 0x0201) 2 = some (r, t) ∧
        t.port.tx = synced_master.port.tx ++ [header0 ROP_WRITE_MB 5, header1 5, 2]
          ++ (List.range 2).map (bytes_of 0x0201) ∧
        ((List.range 2).map (bytes_of 0x0201)).length = 2 ∧
        (2 ≤ 29 → ((List.range 2).map (bytes_of 0x0201)).length ≤ 29) :=
  ⟨Or.inl ⟨by decide, rfl⟩,
    set_reg_mb_frame (rx_const ACK) 0 synced_master synced_master 5 (bytes_of 0x0201) 2
      (Or.inl ⟨by decide, rfl⟩)⟩

/-- C14: with the link unsynchronized or synchronized on entry, `reg_op` returns, and
either the link was unsynchronized and the handshake failed, in which case `reg_op`
returns `false` in the very state the handshake ended in (only the marker written, no
further read, still unsynchronized), or the request is written from a state `s1` in
which the link is synchronized. -/
theorem no_frame_while_unsynced (rx : Nat → Option Nat) (fuel : Nat) (s : RegisterBankMaster)
    (op addr : Nat) (data : Nat → Nat) (len : Nat)
    (hs : s.sync_state = SYNC_NONE ∨ s.sync_state = SYNC_OK) (hfuel : 201 ≤ fuel) :
    (∃ t, s.sync_state = SYNC_NONE ∧ sync rx fuel s = some (false, t) ∧
        reg_op rx fuel s op addr data len = some (false, t) ∧
        t.port.tx = s.port.tx ++ [0xaa] ∧ t.sync_state = SYNC_NONE) ∨
      (∃ s1, ((s.sync_state = SYNC_OK ∧ s1 = s) ∨
          (s.sync_state = SYNC_NONE ∧ sync rx fuel s = some (true, s1))) ∧
        s1.sync_state = SYNC_OK ∧
        (send_request s1 op addr data len).sync_state = SYNC_OK ∧
        (send_request s1 op addr data len).port.tx =
          s1.port.tx ++ [header0 op addr, header1 addr]
            ++ (if op = ROP_WRITE_MB then [len] else []) ++ (List.range len).map data ∧
        reg_op rx fuel s op addr data len =
          some (read_ack rx (send_request s1 op addr data len))) := by
  have frame : ∀ s1 : RegisterBankMaster, (send_request s1 op addr data len).port.tx =
      s1.port.tx ++ [header0 op addr, header1 addr]
        ++ (if op = ROP_WRITE_MB then [len] else []) ++ (List.range len).map data := by
    intro s1
    rw [send_request_eq]
  rcases hs with hs | hs
  · obtain ⟨r, t, e, _⟩ := sync_returns rx fuel s hfuel
    cases r with
    | false =>
      have hf := sync_frame rx fuel s false t e
      refine Or.inl ⟨t, hs, e, ?_, hf.1, by simpa using hf.2.1⟩
      rw [reg_op_unsynced rx fuel s op addr data len hs, e]
    | true =>
      have hent : (s.sync_state = SYNC_OK ∧ t = s) ∨
          (s.sync_state = SYNC_NONE ∧ sync rx fuel s = some (true, t)) := Or.inr ⟨hs, e⟩
      have ht := entry_synced rx fuel s t hent
      exact Or.inr ⟨t, hent, ht, by rw [send_request_sync_state]; exact ht, frame t,
        reg_op_entry rx fuel s t op addr data len hent⟩
  · have hent : (s.sync_state = SYNC_OK ∧ s = s) ∨
        (s.sync_state = SYNC_NONE ∧ sync rx fuel s = some (true, s)) := Or.inl ⟨hs, rfl⟩
    exact Or.inr ⟨s, hent, hs, by rw [send_request_sync_state]; exact hs, frame s,
      reg_op_entry rx fuel s s op addr data len hent⟩

/-- Witness for C14: a freshly constructed master whose remote side never answers. -/
theorem no_frame_while_unsynced_witness :
    ((construct fresh_port).sync_state = SYNC_NONE ∨
        (construct fresh_port).sync_state = SYNC_OK) ∧ 201 ≤ 201 ∧
      ((∃ t, (construct fresh_port).sync_state = SYNC_NONE ∧
          sync rx_silent 201 (construct fresh_port) = some (false, t) ∧
          reg_op rx_silent 201 (construct fresh_port) ROP_WRITE_8 5 (bytes_of 9) 1 =
            some (false, t) ∧
          t.port.tx = (construct fresh_port).port.tx ++ [0xaa] ∧ t.sync_state = SYNC_NONE) ∨
        (∃ s1, (((construct fresh_port).sync_state = SYNC_OK ∧ s1 = construct fresh_port) ∨
            ((construct fresh_port).sync_state = SYNC_NONE ∧
              sync rx_silent 201 (construct fresh_port) = some (true, s1))) ∧
          s1.sync_state = SYNC_OK ∧
          (send_request s1 ROP_WRITE_8 5 (bytes_of 9) 1).sync_state = SYNC_OK ∧
          (send_request s1 ROP_WRITE_8 5 (bytes_of 9) 1).port.tx =
            s1.port.tx ++ [header0 ROP_WRITE_8 5, header1 5]
              ++ (if ROP_WRITE_8 = ROP_WRITE_MB then [1] else [])
              ++ (List.range 1).map (bytes_of 9) ∧
          reg_op rx_silent 201 (construct fresh_port) ROP_WRITE_8 5 (bytes_of 9) 1 =
            some (read_ack rx_silent (send_request s1 ROP_WRITE_8 5 (bytes_of 9) 1)))) :=
  ⟨Or.inl (by decide), by decide,
    no_frame_while_unsynced rx_silent 201 (construct fresh_port) ROP_WRITE_8 5 (bytes_of 9) 1
      (Or.inl (by decide)) (by decide)⟩

/-- C15: every register operation behaves for an address `addr` exactly as for
`addr % 1024`, in particular for every `addr > 1023`: both header bytes, and with them
the whole frame and the result, are the same, so the address is not rejected; and the
opcode bits of the first header byte do not depend on the address. -/
theorem address_low_ten_bits (rx : Nat → Option Nat) (fuel : Nat) (s : RegisterBankMaster)
    (op addr val : Nat) (data : Nat → Nat) (len : Nat) :
    header0 op addr = header0 op (addr % 1024) ∧
      header1 addr = header1 (addr % 1024) ∧
      header0 op addr >>> 2 = header0 op 0 >>> 2 ∧
      reg_op rx fuel s op addr data len = reg_op rx fuel s op (addr % 1024) data len ∧
      get_reg_8 rx fuel s addr = get_reg_8 rx fuel s (addr % 1024) ∧
      get_reg_16 rx fuel s addr = get_reg_16 rx fuel s (addr % 1024) ∧
      get_reg_32 rx fuel s addr = get_reg_32 rx fuel s (addr % 1024) ∧
      get_reg_mb rx fuel s addr = get_reg_mb rx fuel s (addr % 1024) ∧
      set_reg_8 rx fuel s addr val = set_reg_8 rx fuel s (addr % 1024) val ∧
      set_reg_16 rx fuel s addr val = set_reg_16 rx fuel s (addr % 1024) val ∧
      set_reg_32 rx fuel s addr val = set_reg_32 rx fuel s (addr % 1024) val ∧
      set_reg_mb rx fuel s addr data len = set_reg_mb rx fuel s (addr % 1024) data len := by
  refine ⟨header0_addr_mod op addr, header1_addr_mod addr, ?_, reg_op_addr_mod _ _ _ _ _ _ _,
    ?_, ?_, ?_, ?_, ?_, ?_, ?_, ?_⟩
  · rw [header0_eq, header0_eq, Nat.shiftRight_eq_div_pow, Nat.shiftRight_eq_div_pow]
    omega
  · unfold get_reg_8
    rw [reg_op_addr_mod]
  · unfold get_reg_16
    rw [reg_op_addr_mod]
  · unfold get_reg_32
    rw [reg_op_addr_mod]
  · unfold get_reg_mb
    rw [reg_op_addr_mod]
  · unfold set_reg_8
    rw [reg_op_addr_mod]
  · unfold set_reg_16
    rw [reg_op_addr_mod]
  · unfold set_reg_32
    rw [reg_op_addr_mod]
  · unfold set_reg_mb
    rw [reg_op_addr_mod]

/-- C16: when the request has been transmitted (from the synchronized state `s1`) and
acknowledged with `ACK`, and the payload read is short because its `k`-th single-byte
read times out, `get_reg_8`, `get_reg_16` and `get_reg_32` return their sentinel and
`get_reg_mb` returns `false` (also when the read of its length byte times out), and the
link is still synchronized afterwards. -/
theorem short_read_keeps_sync (rx : Nat → Option Nat) (fuel : Nat)
    (s s1 : RegisterBankMaster) (addr k l : Nat)
    (h : (s.sync_state = SYNC_OK ∧ s1 = s) ∨
      (s.sync_state = SYNC_NONE ∧ sync rx fuel s = some (true, s1)))
    (hack : rx s1.port.rxPos = some ACK) :
    (k < 1 → rx (s1.port.rxPos + 1 + k) = none →
        (get_reg_8 rx fuel s addr).map (fun r => (r.1, r.2.sync_state)) =
          some (0xff, SYNC_OK)) ∧
      (k < 2 → rx (s1.port.rxPos + 1 + k) = none →
        (get_reg_16 rx fuel s addr).map (fun r => (r.1, r.2.sync_state)) =
          some (0xffff, SYNC_OK)) ∧
      (k < 4 → rx (s1.port.rxPos + 1 + k) = none →
        (get_reg_32 rx fuel s addr).map (fun r => (r.1, r.2.sync_state)) =
          some (0xffffffff, SYNC_OK)) ∧
      (rx (s1.port.rxPos + 1) = none →
        (get_reg_mb rx fuel s addr).map (fun r => (r.1.ok, r.2.sync_state)) =
          some (false, SYNC_OK)) ∧
      (rx (s1.port.rxPos + 1) = some l → k < l → rx (s1.port.rxPos + 2 + k) = none →
        (get_reg_mb rx fuel s addr).map (fun r => (r.1.ok, r.2.sync_state)) =
          some (false, SYNC_OK)) := by
  refine ⟨?_, ?_, ?_, ?_, ?_⟩
  · intro hlt hk
    obtain ⟨t, e, hp, hst⟩ := reg_op_acked rx fuel s s1 ROP_READ_8 addr NULL 0 h hack
    have hl := readBytes_short rx 1 t.port k hlt (by rw [hp]; exact hk)
    have hne : ¬ (HardwareSerial.readBytes rx 1 t.port).1.length = 1 := by omega
    simp [get_reg_8, e, hne, hst]
  · intro hlt hk
    obtain ⟨t, e, hp, hst⟩ := reg_op_acked rx fuel s s1 ROP_READ_16 addr NULL 0 h hack
    have hl := readBytes_short rx 2 t.port k hlt (by rw [hp]; exact hk)
    have hne : ¬ (HardwareSerial.readBytes rx 2 t.port).1.length = 2 := by omega
    simp [get_reg_16, e, hne, hst]
  · intro hlt hk
    obtain ⟨t, e, hp, hst⟩ := reg_op_acked rx fuel s s1 ROP_READ_32 addr NULL 0 h hack
    have hl := readBytes_short rx 4 t.port k hlt (by rw [hp]; exact hk)
    have hne : ¬ (HardwareSerial.readBytes rx 4 t.port).1.length = 4 := by omega
    simp [get_reg_32, e, hne, hst]
  · intro hnone
    obtain ⟨t, e, hp, hst⟩ := reg_op_acked rx fuel s s1 ROP_READ_MB addr NULL 0 h hack
    have hb := read_byte_none rx { t with timeout := false } (by rw [← hnone, ← hp])
    simp only [get_reg_mb, e, hb]
    simp [hst]
  · intro hl hlt hk
    obtain ⟨p, t, hp, hst, e⟩ := get_reg_mb_acked rx fuel s s1 addr l h hack hl
    have hshort := readBytes_short rx l p k hlt (by rw [hp]; exact hk)
    have hne : ¬ (HardwareSerial.readBytes rx l p).1.length = l := by omega
    simp [e, hne, hst]

/-- Witness for C16: 5 payload bytes announced, 2 sent, then silence. -/
theorem short_read_keeps_sync_witness :
    ((synced_master.sync_state = SYNC_OK ∧ synced_master = synced_master) ∨
      (synced_master.sync_state = SYNC_NONE ∧
        sync (rx_multibyte 5 2) 0 synced_master = some (true, synced_master))) ∧
      rx_multibyte 5 2 synced_master.port.rxPos = some ACK ∧
      (rx_multibyte 5 2 (synced_master.port.rxPos + 1) = some 5 → 2 < 5 →
        rx_multibyte 5 2 (synced_master.port.rxPos + 2 + 2) = none →
        (get_reg_mb (rx_multibyte 5 2) 0 synced_master 0).map
          (fun r => (r.1.ok, r.2.sync_state)) = some (false, SYNC_OK)) ∧
      rx_multibyte 5 2 (synced_master.port.rxPos + 1) = some 5 ∧
      rx_multibyte 5 2 (synced_master.port.rxPos + 2 + 2) = none :=
  ⟨Or.inl ⟨by decide, rfl⟩, rfl,
    (short_read_keeps_sync (rx_multibyte 5 2) 0 synced_master synced_master 0 2 5
      (Or.inl ⟨by decide, rfl⟩) rfl).2.2.2.2, rfl, rfl⟩

set_option maxRecDepth 100000 in
/-- C17 as stated fails. On `rx_alternating` no two timeouts are consecutive and only 10
bytes are received before `sync` returns `false`, at its 21st read, the 11th timeout,
although a marker would follow. On `rx_timeouts_then_noise` there are 10 timeouts and
only 191 received bytes before the marker, yet `sync` returns `false` at its 201st
read: the timed-out reads were counted toward the bound of 200. -/
theorem sync_timeouts_accumulate_and_count_as_noise :
    (sync rx_alternating 201 synced_master).map (fun r => (r.1, r.2.port.rxPos)) =
        some (false, 21) ∧
      (∀ i, i < 21 → ¬ (rx_alternating i = none ∧ rx_alternating (i + 1) = none)) ∧
      ((List.range 21).filter (fun i => (rx_alternating i).isSome)).length = 10 ∧
      rx_alternating 22 = some 0xaa ∧
      (sync rx_timeouts_then_noise 201 synced_master).map (fun r => (r.1, r.2.port.rxPos)) =
        some (false, 201) ∧
      timeouts rx_timeouts_then_noise 0 201 = 10 ∧
      ((List.range 201).filter (fun i => (rx_timeouts_then_noise i).isSome)).length = 191 ∧
      rx_timeouts_then_noise 201 = some 0xaa := by
  decide

/-- C17, amended: `sync` returns, and it succeeds exactly when a marker byte is received
at some read `j ≤ 200` (counting from 0) of the handshake such that no earlier read
received a marker and at most 10 of the earlier reads timed out. So it fails exactly when,
before a marker is read, an 11th read times out, consecutive or not, or a 201st read gives
no marker, timed-out reads counted like received bytes. -/
theorem sync_succeeds_iff (rx : Nat → Option Nat) (fuel : Nat) (s : RegisterBankMaster)
    (hfuel : 201 ≤ fuel) :
    ∃ r t, sync rx fuel s = some (r, t) ∧
      (r = true ↔ ∃ j, j ≤ 200 ∧ is_marker (rx (s.port.rxPos + j)) = true ∧
        (∀ i, i < j → is_marker (rx (s.port.rxPos + i)) = false) ∧
        timeouts rx s.port.rxPos j ≤ 10) := by
  obtain ⟨r, t, e, hiff⟩ := sync_loop_succeeds_iff rx fuel 0 0 (sync_begin s)
    (by omega) (by omega) (by omega)
  rw [sync_begin_eq] at hiff
  simp only [Nat.zero_add] at hiff
  cases r with
  | false => exact ⟨false, t, by simp [sync, e], hiff⟩
  | true =>
    exact ⟨true, ⟨t.port.setTimeout 5000, SYNC_OK, t.timeout⟩, by simp [sync, e], hiff⟩

/-- Witness for C17, amended: the remote side that never answers. -/
theorem sync_succeeds_iff_witness :
    (201 ≤ 201) ∧
      ∃ r t, sync rx_silent 201 synced_master = some (r, t) ∧
        (r = true ↔ ∃ j, j ≤ 200 ∧ is_marker (rx_silent (synced_master.port.rxPos + j)) = true ∧
          (∀ i, i < j → is_marker (rx_silent (synced_master.port.rxPos + i)) = false) ∧
          timeouts rx_silent synced_master.port.rxPos j ≤ 10) :=
  ⟨by decide, sync_succeeds_iff rx_silent 201 synced_master (by decide)⟩

set_option maxRecDepth 100000 in
/-- C18, the code at a failing input: on a freshly constructed master (read timeout
5000 ms) whose remote side never answers, `sync` returns `false` and leaves the read
timeout at 250 ms; so does a handshake that fails on 201 bytes of noise. -/
theorem sync_failure_leaves_timeout_250 :
    (construct fresh_port).port.rdTimeout = 5000 ∧
      (sync rx_silent 201 (construct fresh_port)).map (fun r => (r.1, r.2.port.rdTimeout)) =
        some (false, 250) ∧
      (sync (rx_const 0) 201 (construct fresh_port)).map (fun r => (r.1, r.2.port.rdTimeout)) =
        some (false, 250) ∧
      (250 : Nat) ≠ 5000 := by
  decide

/-- C19: for every behaviour of the remote side, `sync` returns after at least one and
at most 201 single-byte reads, because the loop, entered with `count` reads counted,
returns within `201 - count` reads; and the `uint8_t` counters never wrap: the loop
computes what it would compute with unbounded counters. -/
theorem sync_terminates_within_201_reads (rx : Nat → Option Nat) (fuel : Nat)
    (s : RegisterBankMaster) (hfuel : 201 ≤ fuel) :
    (∃ r t, sync rx fuel s = some (r, t) ∧ s.port.rxPos < t.port.rxPos ∧
        t.port.rxPos ≤ s.port.rxPos + 201) ∧
      (∀ (timer count : Nat) (s2 : RegisterBankMaster), count ≤ 200 → 201 ≤ fuel + count →
        ∃ r t, sync_loop rx fuel timer count s2 = some (r, t) ∧
          t.port.rxPos + count ≤ s2.port.rxPos + 201) ∧
      (∀ fuel2, sync_loop rx fuel2 0 0 (sync_begin s) =
        sync_loop_unbounded rx fuel2 0 0 (sync_begin s)) := by
  refine ⟨?_, fun timer count s2 => sync_loop_returns rx fuel timer count s2, fun fuel2 =>
    sync_loop_eq_unbounded rx fuel2 0 0 (sync_begin s) (by omega) (by omega)⟩
  obtain ⟨r, t, e, hle⟩ := sync_returns rx fuel s hfuel
  exact ⟨r, t, e, (sync_frame rx fuel s r t e).2.2.2.2, hle⟩

/-- Witness for C19: the remote side that sends only bytes `0x00`. -/
theorem sync_terminates_within_201_reads_witness :
    (201 ≤ 201) ∧
      ∃ r t, sync (rx_const 0) 201 synced_master = some (r, t) ∧
        synced_master.port.rxPos < t.port.rxPos ∧
        t.port.rxPos ≤ synced_master.port.rxPos + 201 :=
  ⟨by decide,
    (sync_terminates_within_201_reads (rx_const 0) 201 synced_master (by decide)).1⟩

/-- C20: after every sequence of calls of public member functions on a constructed
master (the sequence runs to its end), the link is unsynchronized or synchronized, never
in the checksum state, and when it is synchronized the read timeout is 5000 ms; so in a
following register operation the state in which the acknowledgement is read, the state
`reg_op` succeeds in, from which the payload is read, and the state after the read of the
length byte of `get_reg_mb` all have the read timeout 5000 ms. -/
theorem synced_implies_normal_timeout (rx : Nat → Option Nat) (fuel : Nat)
    (p : HardwareSerial) (calls : List Call) :
    (201 ≤ fuel → ∃ t, after_calls rx fuel (construct p) calls = some t) ∧
      (∀ t, after_calls rx fuel (construct p) calls = some t →
        (t.sync_state = SYNC_NONE ∨ t.sync_state = SYNC_OK) ∧
        t.sync_state ≠ SYNC_CHECKSUM ∧
        (t.sync_state = SYNC_OK → t.port.rdTimeout = 5000) ∧
        (∀ (s1 : RegisterBankMaster) (op addr : Nat) (data : Nat → Nat) (len : Nat),
          ((t.sync_state = SYNC_OK ∧ s1 = t) ∨
            (t.sync_state = SYNC_NONE ∧ sync rx fuel t = some (true, s1))) →
          (send_request s1 op addr data len).port.rdTimeout = 5000) ∧
        (∀ (op addr : Nat) (data : Nat → Nat) (len : Nat) (u : RegisterBankMaster),
          reg_op rx fuel t op addr data len = some (true, u) →
            u.port.rdTimeout = 5000 ∧
            (∀ n, (HardwareSerial.readBytes rx n u.port).2.rdTimeout = 5000) ∧
            (read_byte rx { u with timeout := false }).2.port.rdTimeout = 5000)) := by
  refine ⟨fun hfuel => after_calls_returns rx fuel calls hfuel (construct p), ?_⟩
  intro t e
  have hk := after_calls_link_ok rx fuel calls (construct p) t (link_ok_construct p) e
  refine ⟨?_, ?_, ?_, ?_, ?_⟩
  · rcases hk with hk | ⟨hk, _⟩
    · exact Or.inl hk
    · exact Or.inr hk
  · rcases hk with hk | ⟨hk, _⟩ <;> rw [hk] <;> decide
  · intro hok
    rcases hk with hk | ⟨_, hk⟩
    · rw [hk] at hok
      exact absurd hok (by decide)
    · exact hk
  · intro s1 op addr data len hent
    rw [send_request_eq]
    rcases hent with ⟨hok, rfl⟩ | ⟨_, hsync⟩
    · rcases hk with hk | ⟨_, hk⟩
      · rw [hk] at hok
        exact absurd hok (by decide)
      · exact hk
    · simpa using (sync_frame rx fuel t true s1 hsync).2.2.1
  · intro op addr data len u hu
    have h5 := ((reg_op_link_ok rx fuel t op addr data len hk true u hu).2 rfl).2
    refine ⟨h5, fun n => by rw [(readBytes_port rx n u.port).2]; exact h5, ?_⟩
    rw [(read_byte_port rx { u with timeout := false }).2.1]
    exact h5

/-- Witness for C20: a 16-bit read and an 8-bit write on a fresh master. -/
theorem synced_implies_normal_timeout_witness :
    (201 ≤ 201) ∧
      ∃ t, after_calls (rx_sync_then (some ACK)) 201 (construct fresh_port)
        [Call.get_reg_16 3, Call.set_reg_8 4 5] = some t :=
  ⟨by decide,
    (synced_implies_normal_timeout (rx_sync_then (some ACK)) 201 fresh_port
      [Call.get_reg_16 3, Call.set_reg_8 4 5]).1 (by decide)⟩

end RegisterBankMaster

end Remregs
